import Mathlib

/-!
# ibc-mock-app: handshake and packet callbacks

A shallow embedding of `ibc_module.go` (package `mockapp`) and `keeper/relay.go`
(package `keeper`).

Conventions of the embedding:

* Go `string` is `String`, Go `[]byte` is `List UInt8`, `uint64` values that are only
  passed along are `Nat`, a pointer that may be `nil` is an `Option`.
* Go `error` is `Option GoError` (`none` is `nil`); a Go result `(string, error)` is a pair.
* `sdk.Context` is `Ctx σ`: the collaborators' state `σ` together with the trace of the
  collaborator calls made so far. Every callback takes a `Ctx σ` and returns the one it
  leaves behind, so that both the state and the calls it made can be read off.
* What the two files import but do not define (the keeper's methods, `types.Version`, the
  acknowledgement serialization, `host.ChannelCapabilityPath`) is taken as a parameter.
-/

namespace MockApp

/-! ## Basic types -/

/-- Go `[]byte`. -/
abbrev Bytes := List UInt8

/-- Go conversion `[]byte(s)`: the UTF-8 bytes of the string. -/
def bytesOf (s : String) : Bytes :=
  s.data.flatMap String.utf8EncodeChar

/-- Go `unicode.IsSpace`: the Latin-1 spaces and the code points with the Unicode
White_Space property. -/
def IsSpace (c : Char) : Bool :=
  let n := c.toNat
  (0x09 ≤ n && n ≤ 0x0d) || n == 0x20 || n == 0x85 || n == 0xA0 || n == 0x1680 ||
    (0x2000 ≤ n && n ≤ 0x200a) || n == 0x2028 || n == 0x2029 || n == 0x202f ||
    n == 0x205f || n == 0x3000

/-- Go `strings.TrimSpace`: the string without its leading and trailing white space. -/
def TrimSpace (s : String) : String :=
  ⟨((s.data.dropWhile IsSpace).reverse.dropWhile IsSpace).reverse⟩

/-- The type `capabilitytypes.Capability`; the callbacks receive a pointer to one. -/
structure Capability where
  Index : Nat
deriving DecidableEq, Repr

/-- The type `clienttypes.Height`. -/
structure Height where
  RevisionNumber : Nat
  RevisionHeight : Nat
deriving DecidableEq, Repr

/-- The type `channeltypes.Order`. -/
inductive Order where
  | NONE
  | UNORDERED
  | ORDERED
deriving DecidableEq, Repr

/-- The type `channeltypes.Counterparty`. -/
structure Counterparty where
  PortId : String
  ChannelId : String
deriving DecidableEq, Repr

/-- The type `channeltypes.Packet`. -/
structure Packet where
  Sequence : Nat
  SourcePort : String
  SourceChannel : String
  DestinationPort : String
  DestinationChannel : String
  Data : Bytes
  TimeoutHeight : Height
  TimeoutTimestamp : Nat
deriving DecidableEq, Repr

/-- The method `Packet.GetData`. -/
def Packet.GetData (p : Packet) : Bytes := p.Data

/-! ## Errors -/

/-- An argument of a format string. -/
inductive FmtArg where
  | str (s : String)
  | bytes (b : Bytes)
deriving DecidableEq, Repr

/-- A Go `error` value: one of the registered errors the two files name, an error coming
from a collaborator, or an error wrapped by `errorsmod.Wrap` / `errorsmod.Wrapf` (kept as
the wrapped error, the format string and its arguments). -/
inductive GoError where
  | ErrInvalidPort
  | ErrInvalidVersion
  | ErrInvalidRequest
  | ErrUnexpectedAcknowledgement
  | ErrChannelCapabilityNotFound
  | collaborator (name : String)
  | Wrapf (err : GoError) (format : String) (args : List FmtArg)
deriving DecidableEq, Repr

/-- The function `errorsmod.Wrap`: a wrap whose description has no arguments. -/
def GoError.Wrap (err : GoError) (description : String) : GoError :=
  GoError.Wrapf err description []

/-- The registered error at the bottom of a chain of wraps (what `errors.Is` compares). -/
def GoError.root : GoError → GoError
  | GoError.Wrapf err _ _ => err.root
  | e => e

/-! ## Constants of `ibc_module.go` -/

def MOCK_PACKET_DATA : String := "mock packet data"
def MOCK_ASYNC_PACKET_DATA : String := "mock async packet data"

def SUCCESSFUL_ACKNOWLEDGEMENT : String := "mock acknowledgement"
def SUCCESSFUL_ASYNC_ACKNOWLEDGEMENT : String := "mock async acknowledgement"
def FAILED_ACKNOWLEDGEMENT : String := "mock failed acknowledgement"

/-! ## Acknowledgements -/

/-- Modelled from the spec: the acknowledgement type of package `types`, whose file is
not among the sources; "tagged outcome over a packet, either `Success(resultBytes)` or
`Failure(reason)`". -/
inductive Acknowledgement where
  | Success (result : String)
  | Failure (reason : String)
deriving DecidableEq, Repr

/-- Modelled from the spec: `types.NewSuccessfulAcknowledgement`, the success
acknowledgement wrapping a result string. -/
def NewSuccessfulAcknowledgement (result : String) : Acknowledgement :=
  Acknowledgement.Success result

/-- Modelled from the spec: `types.NewFailedAcknowledgement`, the failure acknowledgement
wrapping an error string. -/
def NewFailedAcknowledgement (reason : String) : Acknowledgement :=
  Acknowledgement.Failure reason

/-! ## Collaborators -/

/-- A call to a collaborator, as recorded in the trace of a context. -/
inductive Call where
  | GetPort
  | ClaimCapability (cap : Option Capability) (name : String)
  | GetCapability (name : String)
  | SendPacket (chanCap : Option Capability) (sourcePort sourceChannel : String)
      (timeoutHeight : Height) (timeoutTimestamp : Nat) (data : Bytes)
deriving DecidableEq, Repr

/-- The execution context `sdk.Context`: the state of the collaborators and the calls
made to them so far, oldest first. -/
structure Ctx (σ : Type) where
  store : σ
  calls : List Call
deriving DecidableEq, Repr

/-- The capability lookup the keeper holds in its field `scopedKeeper`. -/
structure ScopedKeeper (σ : Type) where
  GetCapability : σ → String → Option Capability × Bool

/-- The transport the keeper holds in its field `ics4Wrapper`; `SendPacket` returns the
state it leaves, the sequence number and the error. -/
structure ICS4Wrapper (σ : Type) where
  SendPacket : σ → Option Capability → String → String → Height → Nat → Bytes →
    σ × Nat × Option GoError

/-- The type `keeper.Keeper`: the two fields `relay.go` uses and the two methods
`ibc_module.go` calls, `GetPort` and `ClaimCapability`, which are defined outside the two
source files. `GetPort` only reads the state; `ClaimCapability` returns the state it
leaves and its error. -/
structure Keeper (σ : Type) where
  scopedKeeper : ScopedKeeper σ
  ics4Wrapper : ICS4Wrapper σ
  GetPort : σ → String
  ClaimCapability : σ → Option Capability → String → σ × Option GoError

/-- What the two files import from package `types` and from package `host`: the default
version constant, the serialization method `Acknowledgement()` of an acknowledgement, and
the capability path of a port and channel. -/
structure Imports where
  Version : String
  Acknowledgement : Acknowledgement → Bytes
  ChannelCapabilityPath : String → String → String

variable {σ : Type}

/-- The call `keeper.GetPort(ctx)`, recorded in the trace. -/
def callGetPort (k : Keeper σ) (ctx : Ctx σ) : Ctx σ × String :=
  (⟨ctx.store, ctx.calls ++ [Call.GetPort]⟩, k.GetPort ctx.store)

/-- The call `keeper.ClaimCapability(ctx, cap, name)`, recorded in the trace. -/
def callClaimCapability (k : Keeper σ) (ctx : Ctx σ) (cap : Option Capability)
    (name : String) : Ctx σ × Option GoError :=
  (⟨(k.ClaimCapability ctx.store cap name).1, ctx.calls ++ [Call.ClaimCapability cap name]⟩,
    (k.ClaimCapability ctx.store cap name).2)

/-- The call `k.scopedKeeper.GetCapability(ctx, name)`, recorded in the trace. -/
def callGetCapability (k : Keeper σ) (ctx : Ctx σ) (name : String) :
    Ctx σ × Option Capability × Bool :=
  (⟨ctx.store, ctx.calls ++ [Call.GetCapability name]⟩,
    k.scopedKeeper.GetCapability ctx.store name)

/-- The call `k.ics4Wrapper.SendPacket(ctx, ...)`, recorded in the trace. -/
def callSendPacket (k : Keeper σ) (ctx : Ctx σ) (chanCap : Option Capability)
    (sourcePort sourceChannel : String) (timeoutHeight : Height) (timeoutTimestamp : Nat)
    (data : Bytes) : Ctx σ × Nat × Option GoError :=
  (⟨(k.ics4Wrapper.SendPacket ctx.store chanCap sourcePort sourceChannel timeoutHeight
        timeoutTimestamp data).1,
      ctx.calls ++ [Call.SendPacket chanCap sourcePort sourceChannel timeoutHeight
        timeoutTimestamp data]⟩,
    (k.ics4Wrapper.SendPacket ctx.store chanCap sourcePort sourceChannel timeoutHeight
        timeoutTimestamp data).2)

/-! ## `ibc_module.go` -/

/-- The type `IBCModule`. -/
structure IBCModule (σ : Type) where
  keeper : Keeper σ

/-- The function `NewIBCModule`. -/
def NewIBCModule (k : Keeper σ) : IBCModule σ :=
  ⟨k⟩

/-- The function `ValidateChannelParams`. -/
def ValidateChannelParams (ctx : Ctx σ) (keeper : Keeper σ) (_order : Order)
    (portID : String) (_channelID : String) : Ctx σ × Option GoError :=
  match callGetPort keeper ctx with
  | (ctx, boundPort) =>
    if boundPort ≠ portID then
      (ctx, some (GoError.Wrapf GoError.ErrInvalidPort "invalid port: %s, expected %s"
        [FmtArg.str portID, FmtArg.str boundPort]))
    else
      (ctx, none)

/-- The method `IBCModule.OnChanOpenInit`. -/
def OnChanOpenInit (T : Imports) (im : IBCModule σ) (ctx : Ctx σ) (order : Order)
    (_connectionHops : List String) (portID channelID : String)
    (chanCap : Option Capability) (_counterparty : Counterparty) (version : String) :
    Ctx σ × String × Option GoError :=
  match ValidateChannelParams ctx im.keeper order portID channelID with
  | (ctx, some err) => (ctx, "", some err)
  | (ctx, none) =>
    let version := if TrimSpace version = "" then T.Version else version
    if version ≠ T.Version then
      (ctx, "", some (GoError.Wrapf GoError.ErrInvalidVersion "got %s, expected %s"
        [FmtArg.str version, FmtArg.str T.Version]))
    else
      match callClaimCapability im.keeper ctx chanCap
          (T.ChannelCapabilityPath portID channelID) with
      | (ctx, some err) => (ctx, "", some err)
      | (ctx, none) => (ctx, version, none)

/-- The method `IBCModule.OnChanOpenTry`. -/
def OnChanOpenTry (T : Imports) (im : IBCModule σ) (ctx : Ctx σ) (order : Order)
    (_connectionHops : List String) (portID channelID : String)
    (chanCap : Option Capability) (_counterparty : Counterparty)
    (counterpartyVersion : String) : Ctx σ × String × Option GoError :=
  match ValidateChannelParams ctx im.keeper order portID channelID with
  | (ctx, some err) => (ctx, "", some err)
  | (ctx, none) =>
    if counterpartyVersion ≠ T.Version then
      (ctx, "", some (GoError.Wrapf GoError.ErrInvalidVersion
        "invalid counterparty version: got: %s, expected %s"
        [FmtArg.str counterpartyVersion, FmtArg.str T.Version]))
    else
      match callClaimCapability im.keeper ctx chanCap
          (T.ChannelCapabilityPath portID channelID) with
      | (ctx, some err) => (ctx, "", some err)
      | (ctx, none) => (ctx, T.Version, none)

/-- The method `IBCModule.OnChanOpenAck`. -/
def OnChanOpenAck (T : Imports) (_im : IBCModule σ) (ctx : Ctx σ) (_portID _channelID : String)
    (_counterpartyChannelID : String) (counterpartyVersion : String) :
    Ctx σ × Option GoError :=
  if counterpartyVersion ≠ T.Version then
    (ctx, some (GoError.Wrapf GoError.ErrInvalidVersion
      "invalid counterparty version: %s, expected %s"
      [FmtArg.str counterpartyVersion, FmtArg.str T.Version]))
  else
    (ctx, none)

/-- The method `IBCModule.OnChanOpenConfirm`. -/
def OnChanOpenConfirm (_im : IBCModule σ) (ctx : Ctx σ) (_portID _channelID : String) :
    Ctx σ × Option GoError :=
  (ctx, none)

/-- The method `IBCModule.OnChanCloseInit`. -/
def OnChanCloseInit (_im : IBCModule σ) (ctx : Ctx σ) (_portID _channelID : String) :
    Ctx σ × Option GoError :=
  (ctx, some (GoError.Wrap GoError.ErrInvalidRequest "user cannot close channel"))

/-- The method `IBCModule.OnChanCloseConfirm`. -/
def OnChanCloseConfirm (_im : IBCModule σ) (ctx : Ctx σ) (_portID _channelID : String) :
    Ctx σ × Option GoError :=
  (ctx, none)

/-- The method `IBCModule.OnRecvPacket`; the result `nil` is `none`. -/
def OnRecvPacket (_im : IBCModule σ) (ctx : Ctx σ) (packet : Packet) (_relayer : Bytes) :
    Ctx σ × Option Acknowledgement :=
  let data := packet.GetData
  if data = bytesOf MOCK_PACKET_DATA then
    (ctx, some (NewSuccessfulAcknowledgement SUCCESSFUL_ACKNOWLEDGEMENT))
  else if data = bytesOf MOCK_ASYNC_PACKET_DATA then
    (ctx, none)
  else
    (ctx, some (NewFailedAcknowledgement FAILED_ACKNOWLEDGEMENT))

/-- The method `IBCModule.OnAcknowledgementPacket`. -/
def OnAcknowledgementPacket (T : Imports) (_im : IBCModule σ) (ctx : Ctx σ) (packet : Packet)
    (ack : Bytes) (_relayer : Bytes) : Ctx σ × Option GoError :=
  let data := packet.GetData
  if data = bytesOf MOCK_PACKET_DATA then
    let expected := T.Acknowledgement (NewSuccessfulAcknowledgement SUCCESSFUL_ACKNOWLEDGEMENT)
    if ack ≠ expected then
      (ctx, some (GoError.Wrapf GoError.ErrUnexpectedAcknowledgement "got: %s, expected: %s"
        [FmtArg.bytes ack, FmtArg.bytes expected]))
    else
      (ctx, none)
  else if data = bytesOf MOCK_ASYNC_PACKET_DATA then
    let expected :=
      T.Acknowledgement (NewSuccessfulAcknowledgement SUCCESSFUL_ASYNC_ACKNOWLEDGEMENT)
    if ack ≠ expected then
      (ctx, some (GoError.Wrapf GoError.ErrUnexpectedAcknowledgement "got: %s, expected: %s"
        [FmtArg.bytes ack, FmtArg.bytes expected]))
    else
      (ctx, none)
  else
    let expected := T.Acknowledgement (NewFailedAcknowledgement FAILED_ACKNOWLEDGEMENT)
    if ack ≠ expected then
      (ctx, some (GoError.Wrapf GoError.ErrUnexpectedAcknowledgement "got: %s, expected: %s"
        [FmtArg.bytes ack, FmtArg.bytes expected]))
    else
      (ctx, none)

/-- The method `IBCModule.OnTimeoutPacket`. -/
def OnTimeoutPacket (_im : IBCModule σ) (ctx : Ctx σ) (_packet : Packet) (_relayer : Bytes) :
    Ctx σ × Option GoError :=
  (ctx, none)

/-- The method `IBCModule.OnChanUpgradeInit`. -/
def OnChanUpgradeInit (ctx : Ctx σ) (_portID _channelID : String) (_proposedOrder : Order)
    (_proposedConnectionHops : List String) (proposedVersion : String) :
    Ctx σ × String × Option GoError :=
  (ctx, proposedVersion, none)

/-- The method `IBCModule.OnChanUpgradeTry`. -/
def OnChanUpgradeTry (ctx : Ctx σ) (_portID _channelID : String) (_proposedOrder : Order)
    (_proposedConnectionHops : List String) (counterpartyVersion : String) :
    Ctx σ × String × Option GoError :=
  (ctx, counterpartyVersion, none)

/-- The method `IBCModule.OnChanUpgradeAck`. -/
def OnChanUpgradeAck (ctx : Ctx σ) (_portID _channelID _counterpartyVersion : String) :
    Ctx σ × Option GoError :=
  (ctx, none)

/-- The method `IBCModule.OnChanUpgradeOpen`. -/
def OnChanUpgradeOpen (ctx : Ctx σ) (_portID _channelID : String) (_proposedOrder : Order)
    (_proposedConnectionHops : List String) (_proposedVersion : String) : Ctx σ :=
  ctx

/-! ## `keeper/relay.go` -/

/-- The method `Keeper.sendPacket`. -/
def sendPacket (T : Imports) (k : Keeper σ) (ctx : Ctx σ) (sourcePort sourceChannel : String)
    (message : String) (_sender : Bytes) (timeoutHeight : Height) (timeoutTimestamp : Nat) :
    Ctx σ × Option GoError :=
  match callGetCapability k ctx (T.ChannelCapabilityPath sourcePort sourceChannel) with
  | (ctx, channelCap, ok) =>
    if !ok then
      (ctx, some (GoError.Wrap GoError.ErrChannelCapabilityNotFound
        "module does not own channel capability"))
    else
      match callSendPacket k ctx channelCap sourcePort sourceChannel timeoutHeight
          timeoutTimestamp (bytesOf message) with
      | (ctx, _, err) => (ctx, err)

/-! ## A reference instance of the collaborators -/

/-- Modelled from the spec: the state of the collaborators the core consumes: the port
binding, the capabilities claimed so far by path, and the next sequence number of the
transport. -/
structure RefStore where
  port : String
  owned : List (String × Capability)
  nextSequence : Nat
deriving DecidableEq, Repr

/-- The error of a failed claim, `CapabilityClaimFailed` in the spec's taxonomy. -/
def ErrCapabilityClaimFailed : GoError :=
  GoError.collaborator "CapabilityClaimFailed"

/-- Modelled from the spec: capability claim `ClaimCapability(capability, path) → error`,
with the bookkeeping of a capability keeper that records the owners of each capability:
claiming a nil capability, or a capability for a path it is already claimed for, fails and
changes nothing; another capability claimed for an owned path is accepted, and is then the
one the lookup of the path returns. -/
def refClaimCapability (s : RefStore) (cap : Option Capability) (name : String) :
    RefStore × Option GoError :=
  match cap with
  | none => (s, some ErrCapabilityClaimFailed)
  | some c =>
    if (name, c) ∈ s.owned then
      (s, some ErrCapabilityClaimFailed)
    else
      (⟨s.port, (name, c) :: s.owned, s.nextSequence⟩, none)

/-- Modelled from the spec: capability lookup `GetCapability(path) → (capability, found)`:
the capability claimed last for the path. -/
def refGetCapability (s : RefStore) (name : String) : Option Capability × Bool :=
  match s.owned.lookup name with
  | some c => (some c, true)
  | none => (none, false)

/-- Modelled from the spec: the transport's packet-send primitive, which hands out
sequence numbers and refuses a nil capability. -/
def refSendPacket (s : RefStore) (chanCap : Option Capability) (_sourcePort : String)
    (_sourceChannel : String) (_timeoutHeight : Height) (_timeoutTimestamp : Nat)
    (_data : Bytes) : RefStore × Nat × Option GoError :=
  match chanCap with
  | none => (s, 0, some (GoError.collaborator "nil capability"))
  | some _ => (⟨s.port, s.owned, s.nextSequence + 1⟩, s.nextSequence, none)

/-- Modelled from the spec: the keeper over the reference store; its port is the port
binding of the store. -/
def refKeeper : Keeper RefStore where
  scopedKeeper := ⟨refGetCapability⟩
  ics4Wrapper := ⟨refSendPacket⟩
  GetPort := fun s => s.port
  ClaimCapability := refClaimCapability

/-- Modelled from the spec: an acknowledgement "serializes to bytes as a tagged result":
a tag byte, 1 for success and 0 for failure, followed by the bytes of the string. -/
def refAcknowledgement : Acknowledgement → Bytes
  | Acknowledgement.Success result => 1 :: bytesOf result
  | Acknowledgement.Failure reason => 0 :: bytesOf reason

/-- Modelled from the spec: the imports of the two files: a default version, the tagged
serialization, and the capability path of ibc-go,
`capabilities/ports/<portID>/channels/<channelID>`. -/
def refImports : Imports where
  Version := "mockapp-1"
  Acknowledgement := refAcknowledgement
  ChannelCapabilityPath := fun portID channelID =>
    "capabilities/ports/" ++ portID ++ "/channels/" ++ channelID

/-- The reference module, bound to the reference keeper. -/
def refModule : IBCModule RefStore :=
  NewIBCModule refKeeper

/-- A fresh reference store bound to port `mock`, with no capability claimed. -/
def refStore0 : RefStore :=
  ⟨"mock", [], 1⟩

/-- A fresh context over the reference store. -/
def refCtx0 : Ctx RefStore :=
  ⟨refStore0, []⟩

/-- The packet with the given payload sent from and to port `mock` on `channel-0`. -/
def mkPacket (data : Bytes) : Packet :=
  ⟨1, "mock", "channel-0", "mock", "channel-0", data, ⟨0, 100⟩, 0⟩

/-! ## Vocabulary of the statements -/

/-- The two stages of the handshake that open a channel on this side. -/
inductive OpenStage where
  | Init
  | Try
deriving DecidableEq, Repr

/-- The open callback of a stage: `OnChanOpenInit` or `OnChanOpenTry`. -/
def OnChanOpen (stage : OpenStage) (T : Imports) (im : IBCModule σ) (ctx : Ctx σ)
    (order : Order) (connectionHops : List String) (portID channelID : String)
    (chanCap : Option Capability) (counterparty : Counterparty) (version : String) :
    Ctx σ × String × Option GoError :=
  match stage with
  | OpenStage.Init =>
    OnChanOpenInit T im ctx order connectionHops portID channelID chanCap counterparty version
  | OpenStage.Try =>
    OnChanOpenTry T im ctx order connectionHops portID channelID chanCap counterparty version

/-- The version a proposal stands for at `OnChanOpenInit`: the default version when the
proposal is empty or white space only, the proposal itself otherwise. -/
def substituted (T : Imports) (version : String) : String :=
  if TrimSpace version = "" then T.Version else version

/-- The version check of a stage: at Init the proposal after empty-substitution, at Try the
counterparty version as given, equals the default version. -/
def VersionAccepted (T : Imports) (stage : OpenStage) (version : String) : Prop :=
  match stage with
  | OpenStage.Init => substituted T version = T.Version
  | OpenStage.Try => version = T.Version

instance instDecidableVersionAccepted (T : Imports) (stage : OpenStage) (version : String) :
    Decidable (VersionAccepted T stage version) :=
  match stage with
  | OpenStage.Init => inferInstanceAs (Decidable (substituted T version = T.Version))
  | OpenStage.Try => inferInstanceAs (Decidable (version = T.Version))

/-- A capability store in which a capability can be claimed for a path at most once:
after a successful claim of a capability for a path, a further claim of the same
capability for the same path fails. Nothing is said of the error of the failed claim or of
the state it leaves. -/
def CapabilityClaimedAtMostOnce (k : Keeper σ) : Prop :=
  ∀ (s : σ) (cap : Option Capability) (name : String),
    (k.ClaimCapability s cap name).2 = none →
      (k.ClaimCapability (k.ClaimCapability s cap name).1 cap name).2 ≠ none

/-- The three classes of payload the packet callbacks tell apart. -/
inductive PayloadClass where
  | sync
  | async
  | other
deriving DecidableEq, Repr

/-- The class of a payload, as the spec words it: the sync sentinel, the async sentinel,
or anything else. -/
def payloadClass (data : Bytes) : PayloadClass :=
  if data = bytesOf "mock packet data" then PayloadClass.sync
  else if data = bytesOf "mock async packet data" then PayloadClass.async
  else PayloadClass.other

/-- The expected acknowledgement of a class, as the spec words it: success with the sync
message, success with the async message, failure. -/
def expectedAcknowledgement : PayloadClass → Acknowledgement
  | PayloadClass.sync => Acknowledgement.Success "mock acknowledgement"
  | PayloadClass.async => Acknowledgement.Success "mock async acknowledgement"
  | PayloadClass.other => Acknowledgement.Failure "mock failed acknowledgement"

/-- A context of the reference store in which the capability with index 7 is already
claimed for port `mock` and `channel-0`. -/
def refCtxClaimed : Ctx RefStore :=
  ⟨⟨"mock", [("capabilities/ports/mock/channels/channel-0", ⟨7⟩)], 1⟩, []⟩

/-- A capability store in which a successful claim of a path makes a later lookup of that
path succeed. -/
def ClaimEnablesLookup (k : Keeper σ) : Prop :=
  ∀ (s : σ) (cap : Option Capability) (name : String),
    (k.ClaimCapability s cap name).2 = none →
      (k.scopedKeeper.GetCapability (k.ClaimCapability s cap name).1 name).2 = true

/-- A fixed-width encoding of a character: the four bytes of its code point, the most
significant first. -/
def wideChar (c : Char) : Bytes :=
  [UInt8.ofNat (c.toNat / 16777216), UInt8.ofNat (c.toNat / 65536 % 256),
    UInt8.ofNat (c.toNat / 256 % 256), UInt8.ofNat (c.toNat % 256)]

/-- A serialization of acknowledgements that is injective on tag and message: a tag byte,
1 for success and 0 for failure, followed by the fixed-width encoding of the characters of
the message. -/
def wideAcknowledgement : Acknowledgement → Bytes
  | Acknowledgement.Success result => 1 :: result.data.flatMap wideChar
  | Acknowledgement.Failure reason => 0 :: reason.data.flatMap wideChar

/-- The reference imports with the fixed-width serialization. -/
def wideImports : Imports where
  Version := refImports.Version
  Acknowledgement := wideAcknowledgement
  ChannelCapabilityPath := refImports.ChannelCapabilityPath

/-! ## Lemmas -/

theorem validateChannelParams_eq (ctx : Ctx σ) (keeper : Keeper σ) (order : Order)
    (portID channelID : String) :
    ValidateChannelParams ctx keeper order portID channelID =
      (⟨ctx.store, ctx.calls ++ [Call.GetPort]⟩,
        if keeper.GetPort ctx.store ≠ portID then
          some (GoError.Wrapf GoError.ErrInvalidPort "invalid port: %s, expected %s"
            [FmtArg.str portID, FmtArg.str (keeper.GetPort ctx.store)])
        else none) := by
  unfold ValidateChannelParams callGetPort
  by_cases h : keeper.GetPort ctx.store = portID <;> simp [h]

/-- The result of `OnChanOpenInit` when the port is not the bound port. -/
theorem onChanOpenInit_invalidPort (T : Imports) (im : IBCModule σ) (ctx : Ctx σ)
    (order : Order) (hops : List String) (portID channelID : String)
    (chanCap : Option Capability) (cp : Counterparty) (version : String)
    (hport : im.keeper.GetPort ctx.store ≠ portID) :
    OnChanOpenInit T im ctx order hops portID channelID chanCap cp version =
      (⟨ctx.store, ctx.calls ++ [Call.GetPort]⟩, "",
        some (GoError.Wrapf GoError.ErrInvalidPort "invalid port: %s, expected %s"
          [FmtArg.str portID, FmtArg.str (im.keeper.GetPort ctx.store)])) := by
  simp [OnChanOpenInit, validateChannelParams_eq, hport]

/-- The result of `OnChanOpenInit` when the port is bound and the version is refused. -/
theorem onChanOpenInit_invalidVersion (T : Imports) (im : IBCModule σ) (ctx : Ctx σ)
    (order : Order) (hops : List String) (portID channelID : String)
    (chanCap : Option Capability) (cp : Counterparty) (version : String)
    (hport : im.keeper.GetPort ctx.store = portID)
    (hver : substituted T version ≠ T.Version) :
    OnChanOpenInit T im ctx order hops portID channelID chanCap cp version =
      (⟨ctx.store, ctx.calls ++ [Call.GetPort]⟩, "",
        some (GoError.Wrapf GoError.ErrInvalidVersion "got %s, expected %s"
          [FmtArg.str (substituted T version), FmtArg.str T.Version])) := by
  unfold substituted at hver ⊢
  simp [OnChanOpenInit, validateChannelParams_eq, hport, hver]

/-- The result of `OnChanOpenInit` when the port is bound and the version is accepted:
the capability is claimed once and the outcome is that of the claim. -/
theorem onChanOpenInit_claim (T : Imports) (im : IBCModule σ) (ctx : Ctx σ)
    (order : Order) (hops : List String) (portID channelID : String)
    (chanCap : Option Capability) (cp : Counterparty) (version : String)
    (hport : im.keeper.GetPort ctx.store = portID)
    (hver : substituted T version = T.Version) :
    OnChanOpenInit T im ctx order hops portID channelID chanCap cp version =
      (⟨(im.keeper.ClaimCapability ctx.store chanCap
            (T.ChannelCapabilityPath portID channelID)).1,
          ctx.calls ++ [Call.GetPort,
            Call.ClaimCapability chanCap (T.ChannelCapabilityPath portID channelID)]⟩,
        if (im.keeper.ClaimCapability ctx.store chanCap
            (T.ChannelCapabilityPath portID channelID)).2 = none then T.Version else "",
        (im.keeper.ClaimCapability ctx.store chanCap
            (T.ChannelCapabilityPath portID channelID)).2) := by
  unfold substituted at hver
  simp only [OnChanOpenInit, validateChannelParams_eq, hport, hver, callClaimCapability]
  cases h : (im.keeper.ClaimCapability ctx.store chanCap
      (T.ChannelCapabilityPath portID channelID)).2 <;> simp [h]

/-- The result of `OnChanOpenTry` when the port is not the bound port. -/
theorem onChanOpenTry_invalidPort (T : Imports) (im : IBCModule σ) (ctx : Ctx σ)
    (order : Order) (hops : List String) (portID channelID : String)
    (chanCap : Option Capability) (cp : Counterparty) (version : String)
    (hport : im.keeper.GetPort ctx.store ≠ portID) :
    OnChanOpenTry T im ctx order hops portID channelID chanCap cp version =
      (⟨ctx.store, ctx.calls ++ [Call.GetPort]⟩, "",
        some (GoError.Wrapf GoError.ErrInvalidPort "invalid port: %s, expected %s"
          [FmtArg.str portID, FmtArg.str (im.keeper.GetPort ctx.store)])) := by
  simp [OnChanOpenTry, validateChannelParams_eq, hport]

/-- The result of `OnChanOpenTry` when the port is bound and the version is refused. -/
theorem onChanOpenTry_invalidVersion (T : Imports) (im : IBCModule σ) (ctx : Ctx σ)
    (order : Order) (hops : List String) (portID channelID : String)
    (chanCap : Option Capability) (cp : Counterparty) (version : String)
    (hport : im.keeper.GetPort ctx.store = portID)
    (hver : version ≠ T.Version) :
    OnChanOpenTry T im ctx order hops portID channelID chanCap cp version =
      (⟨ctx.store, ctx.calls ++ [Call.GetPort]⟩, "",
        some (GoError.Wrapf GoError.ErrInvalidVersion
          "invalid counterparty version: got: %s, expected %s"
          [FmtArg.str version, FmtArg.str T.Version])) := by
  simp [OnChanOpenTry, validateChannelParams_eq, hport, hver]

/-- The result of `OnChanOpenTry` when the port is bound and the version is accepted:
the capability is claimed once and the outcome is that of the claim. -/
theorem onChanOpenTry_claim (T : Imports) (im : IBCModule σ) (ctx : Ctx σ)
    (order : Order) (hops : List String) (portID channelID : String)
    (chanCap : Option Capability) (cp : Counterparty) (version : String)
    (hport : im.keeper.GetPort ctx.store = portID)
    (hver : version = T.Version) :
    OnChanOpenTry T im ctx order hops portID channelID chanCap cp version =
      (⟨(im.keeper.ClaimCapability ctx.store chanCap
            (T.ChannelCapabilityPath portID channelID)).1,
          ctx.calls ++ [Call.GetPort,
            Call.ClaimCapability chanCap (T.ChannelCapabilityPath portID channelID)]⟩,
        if (im.keeper.ClaimCapability ctx.store chanCap
            (T.ChannelCapabilityPath portID channelID)).2 = none then T.Version else "",
        (im.keeper.ClaimCapability ctx.store chanCap
            (T.ChannelCapabilityPath portID channelID)).2) := by
  simp only [OnChanOpenTry, validateChannelParams_eq, hport, hver, callClaimCapability]
  cases h : (im.keeper.ClaimCapability ctx.store chanCap
      (T.ChannelCapabilityPath portID channelID)).2 <;> simp [h]

/-- The result of an open callback when the port is bound and the version is accepted. -/
theorem onChanOpen_claim (stage : OpenStage) (T : Imports) (im : IBCModule σ) (ctx : Ctx σ)
    (order : Order) (hops : List String) (portID channelID : String)
    (chanCap : Option Capability) (cp : Counterparty) (version : String)
    (hport : im.keeper.GetPort ctx.store = portID)
    (hver : VersionAccepted T stage version) :
    OnChanOpen stage T im ctx order hops portID channelID chanCap cp version =
      (⟨(im.keeper.ClaimCapability ctx.store chanCap
            (T.ChannelCapabilityPath portID channelID)).1,
          ctx.calls ++ [Call.GetPort,
            Call.ClaimCapability chanCap (T.ChannelCapabilityPath portID channelID)]⟩,
        if (im.keeper.ClaimCapability ctx.store chanCap
            (T.ChannelCapabilityPath portID channelID)).2 = none then T.Version else "",
        (im.keeper.ClaimCapability ctx.store chanCap
            (T.ChannelCapabilityPath portID channelID)).2) := by
  cases stage with
  | Init =>
    exact onChanOpenInit_claim T im ctx order hops portID channelID chanCap cp version
      hport hver
  | Try =>
    exact onChanOpenTry_claim T im ctx order hops portID channelID chanCap cp version
      hport hver

/-- An open callback that succeeds was called with the bound port and an accepted version,
and its claim succeeded. -/
theorem onChanOpen_success (stage : OpenStage) (T : Imports) (im : IBCModule σ)
    (ctx : Ctx σ) (order : Order) (hops : List String) (portID channelID : String)
    (chanCap : Option Capability) (cp : Counterparty) (version : String)
    (hok : (OnChanOpen stage T im ctx order hops portID channelID chanCap cp
      version).2.2 = none) :
    im.keeper.GetPort ctx.store = portID ∧ VersionAccepted T stage version ∧
      (im.keeper.ClaimCapability ctx.store chanCap
        (T.ChannelCapabilityPath portID channelID)).2 = none := by
  by_cases hport : im.keeper.GetPort ctx.store = portID
  · by_cases hver : VersionAccepted T stage version
    · rw [onChanOpen_claim stage T im ctx order hops portID channelID chanCap cp version
        hport hver] at hok
      exact ⟨hport, hver, hok⟩
    · exfalso
      cases stage with
      | Init =>
        rw [OnChanOpen, onChanOpenInit_invalidVersion T im ctx order hops portID channelID
          chanCap cp version hport hver] at hok
        simp at hok
      | Try =>
        rw [OnChanOpen, onChanOpenTry_invalidVersion T im ctx order hops portID channelID
          chanCap cp version hport hver] at hok
        simp at hok
  · exfalso
    cases stage with
    | Init =>
      rw [OnChanOpen, onChanOpenInit_invalidPort T im ctx order hops portID channelID
        chanCap cp version hport] at hok
      simp at hok
    | Try =>
      rw [OnChanOpen, onChanOpenTry_invalidPort T im ctx order hops portID channelID
        chanCap cp version hport] at hok
      simp at hok

/-- In the reference store a capability can be claimed for a path at most once. -/
theorem refKeeper_capabilityClaimedAtMostOnce : CapabilityClaimedAtMostOnce refKeeper := by
  intro s cap name h
  cases cap with
  | none => simp [refKeeper, refClaimCapability] at h
  | some c =>
    by_cases hl : (name, c) ∈ s.owned
    · simp [refKeeper, refClaimCapability, hl] at h
    · simp [refKeeper, refClaimCapability, hl]

/-- The two sentinel payloads are different byte strings. -/
theorem sync_ne_async : bytesOf "mock packet data" ≠ bytesOf "mock async packet data" := by
  decide

/-- The result of `OnRecvPacket`, by the class of the payload. -/
theorem onRecvPacket_eq (im : IBCModule σ) (ctx : Ctx σ) (packet : Packet)
    (relayer : Bytes) :
    OnRecvPacket im ctx packet relayer =
      (ctx, match payloadClass packet.Data with
        | PayloadClass.sync => some (Acknowledgement.Success "mock acknowledgement")
        | PayloadClass.async => none
        | PayloadClass.other => some (Acknowledgement.Failure "mock failed acknowledgement")) := by
  unfold OnRecvPacket payloadClass Packet.GetData
  simp only [MOCK_PACKET_DATA, MOCK_ASYNC_PACKET_DATA, SUCCESSFUL_ACKNOWLEDGEMENT,
    FAILED_ACKNOWLEDGEMENT, NewSuccessfulAcknowledgement, NewFailedAcknowledgement]
  by_cases h1 : packet.Data = bytesOf "mock packet data"
  · simp [h1]
  · by_cases h2 : packet.Data = bytesOf "mock async packet data"
    · simp [h2, Ne.symm sync_ne_async]
    · simp [h1, h2]

/-- The result of `OnAcknowledgementPacket`: the acknowledgement is compared with the
serialized expected acknowledgement of the class of the payload. -/
theorem onAcknowledgementPacket_eq (T : Imports) (im : IBCModule σ) (ctx : Ctx σ)
    (packet : Packet) (ack relayer : Bytes) :
    OnAcknowledgementPacket T im ctx packet ack relayer =
      (ctx,
        if ack = T.Acknowledgement (expectedAcknowledgement (payloadClass packet.Data)) then
          none
        else
          some (GoError.Wrapf GoError.ErrUnexpectedAcknowledgement "got: %s, expected: %s"
            [FmtArg.bytes ack, FmtArg.bytes
              (T.Acknowledgement (expectedAcknowledgement (payloadClass packet.Data)))])) := by
  unfold OnAcknowledgementPacket payloadClass Packet.GetData
  simp only [MOCK_PACKET_DATA, MOCK_ASYNC_PACKET_DATA, SUCCESSFUL_ACKNOWLEDGEMENT,
    SUCCESSFUL_ASYNC_ACKNOWLEDGEMENT, FAILED_ACKNOWLEDGEMENT, NewSuccessfulAcknowledgement,
    NewFailedAcknowledgement]
  by_cases h1 : packet.Data = bytesOf "mock packet data"
  · by_cases ha : ack = T.Acknowledgement (Acknowledgement.Success "mock acknowledgement")
      <;> simp [h1, ha, expectedAcknowledgement]
  · by_cases h2 : packet.Data = bytesOf "mock async packet data"
    · by_cases ha :
        ack = T.Acknowledgement (Acknowledgement.Success "mock async acknowledgement")
        <;> simp [h2, ha, Ne.symm sync_ne_async, expectedAcknowledgement]
    · by_cases ha :
        ack = T.Acknowledgement (Acknowledgement.Failure "mock failed acknowledgement")
        <;> simp [h1, h2, ha, expectedAcknowledgement]

/-- Replacing one byte of a byte string by a different byte gives a different string. -/
theorem set_ne_self (l : Bytes) (i : Nat) (b : UInt8) (hi : i < l.length)
    (hb : l[i]? ≠ some b) : l.set i b ≠ l := by
  intro h
  apply hb
  rw [← h]
  exact List.getElem?_set_self hi

/-- The function `TrimSpace` returns the empty string exactly on the strings all of whose
characters are white space (the empty string among them). -/
theorem trimSpace_eq_empty_iff (s : String) :
    TrimSpace s = "" ↔ ∀ c ∈ s.data, IsSpace c = true := by
  have hmk : ∀ l : List Char, (String.mk l = "") ↔ l = [] := by
    intro l
    constructor
    · intro h
      have := congrArg String.data h
      simpa using this
    · intro h
      subst h
      rfl
  unfold TrimSpace
  rw [hmk, List.reverse_eq_nil_iff, List.dropWhile_eq_nil_iff]
  constructor
  · intro h
    have h2 : ∀ x ∈ s.data.dropWhile IsSpace, IsSpace x = true := by
      intro x hx
      exact h x (List.mem_reverse.mpr hx)
    have h3 : s.data.dropWhile IsSpace = [] := by
      rw [← List.dropWhile_idempotent]
      exact List.dropWhile_eq_nil_iff.mpr h2
    exact List.dropWhile_eq_nil_iff.mp h3
  · intro h x hx
    have h3 : s.data.dropWhile IsSpace = [] := List.dropWhile_eq_nil_iff.mpr h
    rw [h3] at hx
    simp at hx

/-- A proposal that is empty or white space only stands for the default version. -/
theorem substituted_of_space (T : Imports) (version : String)
    (h : ∀ c ∈ version.data, IsSpace c = true) : substituted T version = T.Version := by
  unfold substituted
  rw [if_pos ((trimSpace_eq_empty_iff version).mpr h)]

/-! ## The handshake: opening a channel -/

/-- C1, as stated, fails: on the fresh reference store, `OnChanOpenInit` is called with
the bound port `mock`, the default version and a nil capability, and it does not succeed,
because the claim of a nil capability fails. -/
theorem C1_counterexample :
    ¬ ((OnChanOpenInit refImports refModule refCtx0 Order.UNORDERED ["connection-0"]
          "mock" "channel-0" none ⟨"mock", "channel-1"⟩ "mockapp-1").2.2 = none ↔
        ("mock" = refModule.keeper.GetPort refCtx0.store ∧
          substituted refImports "mockapp-1" = refImports.Version)) := by
  decide

/-- C1, amended: `OnChanOpenInit` succeeds if and only if `portID` is the bound port
returned by `GetPort`, the version after empty-substitution is the default version, and
`ClaimCapability` on the channel capability path succeeds; `OnChanOpenTry` succeeds if and
only if `portID` is the bound port, `counterpartyVersion` is the default version, and
`ClaimCapability` on the channel capability path succeeds. -/
theorem C1_open_succeeds_iff (T : Imports) (im : IBCModule σ) (ctx : Ctx σ) (order : Order)
    (connectionHops : List String) (portID channelID : String)
    (chanCap : Option Capability) (counterparty : Counterparty) (version : String) :
    ((OnChanOpenInit T im ctx order connectionHops portID channelID chanCap counterparty
          version).2.2 = none ↔
        (portID = im.keeper.GetPort ctx.store ∧ substituted T version = T.Version ∧
          (im.keeper.ClaimCapability ctx.store chanCap
            (T.ChannelCapabilityPath portID channelID)).2 = none)) ∧
    ((OnChanOpenTry T im ctx order connectionHops portID channelID chanCap counterparty
          version).2.2 = none ↔
        (portID = im.keeper.GetPort ctx.store ∧ version = T.Version ∧
          (im.keeper.ClaimCapability ctx.store chanCap
            (T.ChannelCapabilityPath portID channelID)).2 = none)) := by
  by_cases hport : im.keeper.GetPort ctx.store = portID
  · have hp : portID = im.keeper.GetPort ctx.store := hport.symm
    constructor
    · by_cases hver : substituted T version = T.Version
      · rw [onChanOpenInit_claim T im ctx order connectionHops portID channelID chanCap
          counterparty version hport hver]
        simp [hp, hver]
      · rw [onChanOpenInit_invalidVersion T im ctx order connectionHops portID channelID
          chanCap counterparty version hport hver]
        simp [hver]
    · by_cases hver : version = T.Version
      · rw [onChanOpenTry_claim T im ctx order connectionHops portID channelID chanCap
          counterparty version hport hver]
        simp [hp, hver]
      · rw [onChanOpenTry_invalidVersion T im ctx order connectionHops portID channelID
          chanCap counterparty version hport hver]
        simp [hver]
  · have hp : ¬ portID = im.keeper.GetPort ctx.store := fun h => hport h.symm
    rw [onChanOpenInit_invalidPort T im ctx order connectionHops portID channelID chanCap
        counterparty version hport,
      onChanOpenTry_invalidPort T im ctx order connectionHops portID channelID chanCap
        counterparty version hport]
    simp [hp]

/-- C2: when `portID` is the bound port, a call of `OnChanOpenInit` whose version passes
the version check, and a call of `OnChanOpenTry` whose counterparty version passes it,
makes exactly one claim, on `ChannelCapabilityPath(portID, channelID)`; its error is the
error of that claim, so it fails exactly when the claim fails; the state it leaves is the
one the claim leaves; and when the claim fails it returns the empty version with the
claim error unchanged. -/
theorem C2_claim_failure_is_fatal (T : Imports) (im : IBCModule σ) (ctx : Ctx σ)
    (stage : OpenStage) (order : Order) (connectionHops : List String)
    (portID channelID : String) (chanCap : Option Capability) (counterparty : Counterparty)
    (version : String)
    (hport : portID = im.keeper.GetPort ctx.store)
    (hver : VersionAccepted T stage version) :
    (OnChanOpen stage T im ctx order connectionHops portID channelID chanCap counterparty
        version).2.2 =
      (im.keeper.ClaimCapability ctx.store chanCap
        (T.ChannelCapabilityPath portID channelID)).2 ∧
    (OnChanOpen stage T im ctx order connectionHops portID channelID chanCap counterparty
        version).1 =
      ⟨(im.keeper.ClaimCapability ctx.store chanCap
          (T.ChannelCapabilityPath portID channelID)).1,
        ctx.calls ++ [Call.GetPort,
          Call.ClaimCapability chanCap (T.ChannelCapabilityPath portID channelID)]⟩ ∧
    ∀ err : GoError,
      (im.keeper.ClaimCapability ctx.store chanCap
        (T.ChannelCapabilityPath portID channelID)).2 = some err →
      (OnChanOpen stage T im ctx order connectionHops portID channelID chanCap counterparty
        version).2 = ("", some err) := by
  cases stage with
  | Init =>
    have h := onChanOpenInit_claim T im ctx order connectionHops portID channelID chanCap
      counterparty version hport.symm hver
    simp only [OnChanOpen, h, true_and]
    intro err herr
    simp [herr]
  | Try =>
    have h := onChanOpenTry_claim T im ctx order connectionHops portID channelID chanCap
      counterparty version hport.symm hver
    simp only [OnChanOpen, h, true_and]
    intro err herr
    simp [herr]

/-- C2 at a concrete input: on the reference store with the capability with index 7
already claimed for `mock` and `channel-0`, `OnChanOpenTry` with the bound port, the
default version and that same capability returns the empty version and the error of the
claim. -/
theorem C2_claim_failure_is_fatal_witness :
    (OnChanOpen OpenStage.Try refImports refModule refCtxClaimed Order.UNORDERED
        ["connection-0"] "mock" "channel-0" (some ⟨7⟩) ⟨"mock", "channel-1"⟩
        "mockapp-1").2 = ("", some ErrCapabilityClaimFailed) :=
  (C2_claim_failure_is_fatal refImports refModule refCtxClaimed OpenStage.Try
    Order.UNORDERED ["connection-0"] "mock" "channel-0" (some ⟨7⟩) ⟨"mock", "channel-1"⟩
    "mockapp-1" (by decide) (by decide)).2.2 ErrCapabilityClaimFailed (by decide)

/-- C3, as stated, fails: the reference store keeps the owners of each capability, as the
capability keeper does, so a capability can be claimed for a path at most once; after a
successful `OnChanOpenInit` on port `mock` and `channel-0` with the capability of index 7,
an `OnChanOpenTry` on the same port and channel, with the bound port, the default version
and the capability of index 8, does not fail: it returns the default version and no
error, and the path is then claimed for both capabilities. -/
theorem C3_counterexample :
    CapabilityClaimedAtMostOnce refKeeper ∧
    (OnChanOpen OpenStage.Init refImports refModule refCtx0 Order.UNORDERED
        ["connection-0"] "mock" "channel-0" (some ⟨7⟩) ⟨"mock", "channel-1"⟩ "").2 =
      ("mockapp-1", none) ∧
    (OnChanOpen OpenStage.Try refImports refModule
        (OnChanOpen OpenStage.Init refImports refModule refCtx0 Order.UNORDERED
          ["connection-0"] "mock" "channel-0" (some ⟨7⟩) ⟨"mock", "channel-1"⟩ "").1
        Order.UNORDERED ["connection-0"] "mock" "channel-0" (some ⟨8⟩)
        ⟨"mock", "channel-1"⟩ "mockapp-1").2 = ("mockapp-1", none) ∧
    (OnChanOpen OpenStage.Try refImports refModule
        (OnChanOpen OpenStage.Init refImports refModule refCtx0 Order.UNORDERED
          ["connection-0"] "mock" "channel-0" (some ⟨7⟩) ⟨"mock", "channel-1"⟩ "").1
        Order.UNORDERED ["connection-0"] "mock" "channel-0" (some ⟨8⟩)
        ⟨"mock", "channel-1"⟩ "mockapp-1").1.store =
      ⟨"mock", [("capabilities/ports/mock/channels/channel-0", ⟨8⟩),
        ("capabilities/ports/mock/channels/channel-0", ⟨7⟩)], 1⟩ :=
  ⟨refKeeper_capabilityClaimedAtMostOnce, by decide, by decide, by decide⟩

/-- C3, amended: over a capability store in which a capability can be claimed for a path
at most once, a successful open (Init or Try) makes exactly one claim, that of the
`(portID, channelID)` path, and a second open (Init or Try) on the same
`(portID, channelID)` presenting the same capability, with the bound port and an accepted
version, made in the state the first open left, fails: it makes one more claim of the
path, which fails, returns the empty version and the error of that claim unchanged, and
leaves the store as the failed claim leaves it, hence as it was after the first open when
the failed claim changes nothing. -/
theorem C3_claimed_exactly_once (T : Imports) (im : IBCModule σ)
    (hstore : CapabilityClaimedAtMostOnce im.keeper) (ctx : Ctx σ)
    (first second : OpenStage) (order order2 : Order) (hops hops2 : List String)
    (portID channelID : String) (chanCap : Option Capability) (cp cp2 : Counterparty)
    (version version2 : String) (r : Ctx σ × String × Option GoError)
    (hr : OnChanOpen first T im ctx order hops portID channelID chanCap cp version = r)
    (hfirst : r.2.2 = none)
    (hport2 : portID = im.keeper.GetPort r.1.store)
    (hver2 : VersionAccepted T second version2) :
    r.1.calls = ctx.calls ++ [Call.GetPort,
      Call.ClaimCapability chanCap (T.ChannelCapabilityPath portID channelID)] ∧
    (im.keeper.ClaimCapability r.1.store chanCap
      (T.ChannelCapabilityPath portID channelID)).2 ≠ none ∧
    OnChanOpen second T im r.1 order2 hops2 portID channelID chanCap cp2 version2 =
      (⟨(im.keeper.ClaimCapability r.1.store chanCap
            (T.ChannelCapabilityPath portID channelID)).1,
          r.1.calls ++ [Call.GetPort,
            Call.ClaimCapability chanCap (T.ChannelCapabilityPath portID channelID)]⟩,
        "",
        (im.keeper.ClaimCapability r.1.store chanCap
          (T.ChannelCapabilityPath portID channelID)).2) ∧
    ((im.keeper.ClaimCapability r.1.store chanCap
        (T.ChannelCapabilityPath portID channelID)).1 = r.1.store →
      (OnChanOpen second T im r.1 order2 hops2 portID channelID chanCap cp2
        version2).1.store = r.1.store) := by
  subst hr
  obtain ⟨hport, hver, hclaim⟩ := onChanOpen_success first T im ctx order hops portID
    channelID chanCap cp version hfirst
  have h1 := onChanOpen_claim first T im ctx order hops portID channelID chanCap cp version
    hport hver
  rw [h1] at hport2 ⊢
  have hfail := hstore ctx.store chanCap (T.ChannelCapabilityPath portID channelID) hclaim
  have h2 := onChanOpen_claim second T im
    ⟨(im.keeper.ClaimCapability ctx.store chanCap
        (T.ChannelCapabilityPath portID channelID)).1,
      ctx.calls ++ [Call.GetPort,
        Call.ClaimCapability chanCap (T.ChannelCapabilityPath portID channelID)]⟩
    order2 hops2 portID channelID chanCap cp2 version2 hport2.symm hver2
  rw [if_neg hfail] at h2
  refine ⟨rfl, hfail, h2, ?_⟩
  intro hsame
  rw [h2]
  exact hsame

/-- C3 at a concrete input: on the reference store, after `OnChanOpenInit` on port `mock`
and `channel-0` with the capability of index 7 and an empty version, `OnChanOpenTry` on the
same port and channel with the same capability makes a second claim, fails with
`CapabilityClaimFailed` and leaves the store as it was. -/
theorem C3_claimed_exactly_once_witness :
    OnChanOpen OpenStage.Try refImports refModule
        (⟨⟨"mock", [("capabilities/ports/mock/channels/channel-0", ⟨7⟩)], 1⟩,
          [Call.GetPort,
            Call.ClaimCapability (some ⟨7⟩) "capabilities/ports/mock/channels/channel-0"]⟩)
        Order.ORDERED ["connection-1"] "mock" "channel-0" (some ⟨7⟩) ⟨"mock", "channel-2"⟩
        "mockapp-1" =
      (⟨⟨"mock", [("capabilities/ports/mock/channels/channel-0", ⟨7⟩)], 1⟩,
          [Call.GetPort,
            Call.ClaimCapability (some ⟨7⟩) "capabilities/ports/mock/channels/channel-0",
            Call.GetPort,
            Call.ClaimCapability (some ⟨7⟩) "capabilities/ports/mock/channels/channel-0"]⟩,
        "", some ErrCapabilityClaimFailed) :=
  (C3_claimed_exactly_once refImports refModule refKeeper_capabilityClaimedAtMostOnce
    refCtx0 OpenStage.Init OpenStage.Try Order.UNORDERED Order.ORDERED ["connection-0"]
    ["connection-1"] "mock" "channel-0" (some ⟨7⟩) ⟨"mock", "channel-1"⟩
    ⟨"mock", "channel-2"⟩ "" "mockapp-1"
    (⟨⟨"mock", [("capabilities/ports/mock/channels/channel-0", ⟨7⟩)], 1⟩,
        [Call.GetPort,
          Call.ClaimCapability (some ⟨7⟩) "capabilities/ports/mock/channels/channel-0"]⟩,
      "mockapp-1", none)
    (by decide) rfl (by decide) (by decide)).2.2.1

/-! ## The packet callbacks -/

/-- C4: `OnRecvPacket` classifies every payload and has no error result: for the sync
sentinel `mock packet data` it returns `Success("mock acknowledgement")`, for the async
sentinel `mock async packet data` it returns no acknowledgement, and for every other
payload, the empty one included, it returns `Failure("mock failed acknowledgement")`; the
context is left as it was. -/
theorem C4_recv_classification (im : IBCModule σ) (ctx : Ctx σ) (packet : Packet)
    (relayer : Bytes) :
    (packet.Data = bytesOf "mock packet data" →
      OnRecvPacket im ctx packet relayer =
        (ctx, some (Acknowledgement.Success "mock acknowledgement"))) ∧
    (packet.Data = bytesOf "mock async packet data" →
      OnRecvPacket im ctx packet relayer = (ctx, none)) ∧
    (packet.Data ≠ bytesOf "mock packet data" →
      packet.Data ≠ bytesOf "mock async packet data" →
      OnRecvPacket im ctx packet relayer =
        (ctx, some (Acknowledgement.Failure "mock failed acknowledgement"))) ∧
    (packet.Data = [] →
      OnRecvPacket im ctx packet relayer =
        (ctx, some (Acknowledgement.Failure "mock failed acknowledgement"))) := by
  rw [onRecvPacket_eq]
  refine ⟨?_, ?_, ?_, ?_⟩
  · intro h
    simp [payloadClass, h]
  · intro h
    have hne := sync_ne_async
    simp [payloadClass, h, hne.symm]
  · intro h1 h2
    simp [payloadClass, h1, h2]
  · intro h
    have h1 : ([] : Bytes) ≠ bytesOf "mock packet data" := by decide
    have h2 : ([] : Bytes) ≠ bytesOf "mock async packet data" := by decide
    simp [payloadClass, h, h1, h2]

/-- C4 at a concrete input: the packet carrying `mock async packet data` gets no
acknowledgement. -/
theorem C4_recv_classification_witness :
    OnRecvPacket refModule refCtx0 (mkPacket (bytesOf "mock async packet data")) [] =
      (refCtx0, none) :=
  (C4_recv_classification refModule refCtx0 (mkPacket (bytesOf "mock async packet data"))
    []).2.1 rfl

/-- C5: `OnAcknowledgementPacket` succeeds if and only if the acknowledgement bytes equal
the serialized expected acknowledgement of the class of the original payload; otherwise
it fails with `ErrUnexpectedAcknowledgement` wrapped with the received and the expected
bytes; in particular the expected bytes with one byte replaced by a different byte are
rejected with that error. The context is left as it was. -/
theorem C5_ack_verification (T : Imports) (im : IBCModule σ) (ctx : Ctx σ) (packet : Packet)
    (ack relayer : Bytes) :
    ((OnAcknowledgementPacket T im ctx packet ack relayer).2 = none ↔
      ack = T.Acknowledgement (expectedAcknowledgement (payloadClass packet.Data))) ∧
    (ack ≠ T.Acknowledgement (expectedAcknowledgement (payloadClass packet.Data)) →
      OnAcknowledgementPacket T im ctx packet ack relayer =
        (ctx, some (GoError.Wrapf GoError.ErrUnexpectedAcknowledgement
          "got: %s, expected: %s"
          [FmtArg.bytes ack, FmtArg.bytes
            (T.Acknowledgement (expectedAcknowledgement (payloadClass packet.Data)))]))) ∧
    (∀ (i : Nat) (b : UInt8),
      i < (T.Acknowledgement (expectedAcknowledgement (payloadClass packet.Data))).length →
      (T.Acknowledgement (expectedAcknowledgement (payloadClass packet.Data)))[i]? ≠ some b →
      OnAcknowledgementPacket T im ctx packet
          ((T.Acknowledgement (expectedAcknowledgement (payloadClass packet.Data))).set i b)
          relayer =
        (ctx, some (GoError.Wrapf GoError.ErrUnexpectedAcknowledgement
          "got: %s, expected: %s"
          [FmtArg.bytes
            ((T.Acknowledgement (expectedAcknowledgement (payloadClass packet.Data))).set i b),
           FmtArg.bytes
            (T.Acknowledgement (expectedAcknowledgement (payloadClass packet.Data)))]))) := by
  refine ⟨?_, ?_, ?_⟩
  · rw [onAcknowledgementPacket_eq]
    by_cases h : ack = T.Acknowledgement (expectedAcknowledgement (payloadClass packet.Data))
      <;> simp [h]
  · intro h
    rw [onAcknowledgementPacket_eq]
    simp [h]
  · intro i b hi hb
    rw [onAcknowledgementPacket_eq]
    simp [set_ne_self _ i b hi hb]

/-- C5 at a concrete input: for the original payload `mock packet data`, the expected
acknowledgement of the reference serialization with its first byte, the tag 1, replaced by
0 is rejected with `ErrUnexpectedAcknowledgement`. -/
theorem C5_ack_verification_witness :
    (OnAcknowledgementPacket refImports refModule refCtx0
        (mkPacket (bytesOf "mock packet data"))
        (0 :: bytesOf "mock acknowledgement") []).2 =
      some (GoError.Wrapf GoError.ErrUnexpectedAcknowledgement "got: %s, expected: %s"
        [FmtArg.bytes (0 :: bytesOf "mock acknowledgement"),
          FmtArg.bytes (1 :: bytesOf "mock acknowledgement")]) :=
  congrArg Prod.snd
    ((C5_ack_verification refImports refModule refCtx0
      (mkPacket (bytesOf "mock packet data")) [] []).2.2 0 0 (by decide) (by decide))

/-- C6: for every payload other than the async sentinel `OnRecvPacket` returns an
acknowledgement, and whenever `OnRecvPacket` returns an acknowledgement, the serialized
acknowledgement passed to `OnAcknowledgementPacket` with the same packet is accepted; for
the payload `mock packet data` that acknowledgement is
`Success("mock acknowledgement")`. -/
theorem C6_recv_then_verify (T : Imports) (im : IBCModule σ) (ctx ctx2 : Ctx σ)
    (packet : Packet) (relayer relayer2 : Bytes) :
    (packet.Data ≠ bytesOf "mock async packet data" →
      ∃ a, (OnRecvPacket im ctx packet relayer).2 = some a) ∧
    (∀ a, (OnRecvPacket im ctx packet relayer).2 = some a →
      OnAcknowledgementPacket T im ctx2 packet (T.Acknowledgement a) relayer2 =
        (ctx2, none)) ∧
    (packet.Data = bytesOf "mock packet data" →
      (OnRecvPacket im ctx packet relayer).2 =
        some (Acknowledgement.Success "mock acknowledgement")) := by
  rw [onRecvPacket_eq]
  refine ⟨?_, ?_, ?_⟩
  · intro h
    by_cases h1 : packet.Data = bytesOf "mock packet data" <;> simp [payloadClass, h, h1]
  · intro a ha
    rw [onAcknowledgementPacket_eq]
    cases hc : payloadClass packet.Data <;> simp [hc] at ha <;>
      simp [hc, ← ha, expectedAcknowledgement]
  · intro h
    simp [payloadClass, h]

/-- C6 at a concrete input: the acknowledgement of the packet carrying `mock packet data`,
serialized by the reference serialization, is accepted for that packet. -/
theorem C6_recv_then_verify_witness :
    OnAcknowledgementPacket refImports refModule refCtx0
        (mkPacket (bytesOf "mock packet data"))
        (refImports.Acknowledgement (Acknowledgement.Success "mock acknowledgement")) [] =
      (refCtx0, none) :=
  (C6_recv_then_verify refImports refModule refCtx0 refCtx0
    (mkPacket (bytesOf "mock packet data")) [] []).2.1
    (Acknowledgement.Success "mock acknowledgement") (by decide)

/-! ## Sending a packet -/

/-- C7: when the lookup of the capability at `ChannelCapabilityPath(sourcePort,
sourceChannel)` finds nothing, `sendPacket` fails, for every message, sender and timeout,
with `ErrChannelCapabilityNotFound` wrapped with "module does not own channel capability";
the only collaborator call it makes is the lookup, so the transport is not invoked, and
the state is left as it was. -/
theorem C7_send_without_capability (T : Imports) (k : Keeper σ) (ctx : Ctx σ)
    (sourcePort sourceChannel message : String) (sender : Bytes) (timeoutHeight : Height)
    (timeoutTimestamp : Nat)
    (hnone : (k.scopedKeeper.GetCapability ctx.store
      (T.ChannelCapabilityPath sourcePort sourceChannel)).2 = false) :
    sendPacket T k ctx sourcePort sourceChannel message sender timeoutHeight
        timeoutTimestamp =
      (⟨ctx.store,
          ctx.calls ++ [Call.GetCapability (T.ChannelCapabilityPath sourcePort sourceChannel)]⟩,
        some (GoError.Wrap GoError.ErrChannelCapabilityNotFound
          "module does not own channel capability")) := by
  simp [sendPacket, callGetCapability, hnone]

/-- C7 at a concrete input: on the fresh reference store, where no handshake has been
made, sending on port `mock` and `channel-0` fails with the capability-not-found error. -/
theorem C7_send_without_capability_witness :
    sendPacket refImports refKeeper refCtx0 "mock" "channel-0" "hello" [] ⟨0, 100⟩ 0 =
      (⟨refStore0, [Call.GetCapability "capabilities/ports/mock/channels/channel-0"]⟩,
        some (GoError.Wrap GoError.ErrChannelCapabilityNotFound
          "module does not own channel capability")) :=
  C7_send_without_capability refImports refKeeper refCtx0 "mock" "channel-0" "hello" []
    ⟨0, 100⟩ 0 (by decide)

/-- C8: when the lookup of the capability at `ChannelCapabilityPath(sourcePort,
sourceChannel)` finds one, `sendPacket` makes, after the lookup, exactly one call of the
transport's `SendPacket`, with the capability looked up, the same port, channel, timeout
height and timeout timestamp, and the bytes of the message; it returns the error of that
call unchanged (the sequence number is dropped) and leaves the state the transport
leaves. -/
theorem C8_send_delegates (T : Imports) (k : Keeper σ) (ctx : Ctx σ)
    (sourcePort sourceChannel message : String) (sender : Bytes) (timeoutHeight : Height)
    (timeoutTimestamp : Nat)
    (hfound : (k.scopedKeeper.GetCapability ctx.store
      (T.ChannelCapabilityPath sourcePort sourceChannel)).2 = true) :
    sendPacket T k ctx sourcePort sourceChannel message sender timeoutHeight
        timeoutTimestamp =
      (⟨(k.ics4Wrapper.SendPacket ctx.store
            (k.scopedKeeper.GetCapability ctx.store
              (T.ChannelCapabilityPath sourcePort sourceChannel)).1
            sourcePort sourceChannel timeoutHeight timeoutTimestamp (bytesOf message)).1,
          ctx.calls ++ [Call.GetCapability (T.ChannelCapabilityPath sourcePort sourceChannel),
            Call.SendPacket
              (k.scopedKeeper.GetCapability ctx.store
                (T.ChannelCapabilityPath sourcePort sourceChannel)).1
              sourcePort sourceChannel timeoutHeight timeoutTimestamp (bytesOf message)]⟩,
        (k.ics4Wrapper.SendPacket ctx.store
            (k.scopedKeeper.GetCapability ctx.store
              (T.ChannelCapabilityPath sourcePort sourceChannel)).1
            sourcePort sourceChannel timeoutHeight timeoutTimestamp (bytesOf message)).2.2) := by
  simp [sendPacket, callGetCapability, callSendPacket, hfound]

/-- C8 at a concrete input: on the reference store with the capability of `mock` and
`channel-0` claimed, sending `hello` calls the transport once with that capability and
succeeds. -/
theorem C8_send_delegates_witness :
    sendPacket refImports refKeeper refCtxClaimed "mock" "channel-0" "hello" [] ⟨0, 100⟩ 5 =
      (⟨⟨"mock", [("capabilities/ports/mock/channels/channel-0", ⟨7⟩)], 2⟩,
          [Call.GetCapability "capabilities/ports/mock/channels/channel-0",
            Call.SendPacket (some ⟨7⟩) "mock" "channel-0" ⟨0, 100⟩ 5 (bytesOf "hello")]⟩,
        none) :=
  C8_send_delegates refImports refKeeper refCtxClaimed "mock" "channel-0" "hello" []
    ⟨0, 100⟩ 5 (by decide)

/-! ## The version an open returns -/

/-- C9: whenever `OnChanOpenInit` succeeds, the version it returns is the default version;
and for every proposed version that is empty or white space only, with `portID` the bound
port and the claim succeeding, `OnChanOpenInit` returns the default version and no error,
having claimed the capability of the `(portID, channelID)` path. -/
theorem C9_init_returns_default (T : Imports) (im : IBCModule σ) (ctx : Ctx σ)
    (order : Order) (connectionHops : List String) (portID channelID : String)
    (chanCap : Option Capability) (counterparty : Counterparty) (version : String) :
    ((OnChanOpenInit T im ctx order connectionHops portID channelID chanCap counterparty
        version).2.2 = none →
      (OnChanOpenInit T im ctx order connectionHops portID channelID chanCap counterparty
        version).2.1 = T.Version) ∧
    ((∀ c ∈ version.data, IsSpace c = true) →
      portID = im.keeper.GetPort ctx.store →
      (im.keeper.ClaimCapability ctx.store chanCap
        (T.ChannelCapabilityPath portID channelID)).2 = none →
      OnChanOpenInit T im ctx order connectionHops portID channelID chanCap counterparty
          version =
        (⟨(im.keeper.ClaimCapability ctx.store chanCap
              (T.ChannelCapabilityPath portID channelID)).1,
            ctx.calls ++ [Call.GetPort,
              Call.ClaimCapability chanCap (T.ChannelCapabilityPath portID channelID)]⟩,
          T.Version, none)) := by
  constructor
  · intro hok
    obtain ⟨hport, hver, hclaim⟩ := onChanOpen_success OpenStage.Init T im ctx order
      connectionHops portID channelID chanCap counterparty version hok
    rw [onChanOpenInit_claim T im ctx order connectionHops portID channelID chanCap
      counterparty version hport hver]
    simp [hclaim]
  · intro hspace hport hclaim
    rw [onChanOpenInit_claim T im ctx order connectionHops portID channelID chanCap
      counterparty version hport.symm (substituted_of_space T version hspace)]
    simp [hclaim]

/-- C9 at a concrete input: on the fresh reference store, `OnChanOpenInit` on port `mock`
with the empty version returns the default version and the capability is claimed. -/
theorem C9_init_returns_default_witness :
    OnChanOpenInit refImports refModule refCtx0 Order.UNORDERED ["connection-0"] "mock"
        "channel-0" (some ⟨7⟩) ⟨"mock", "channel-1"⟩ "" =
      (⟨⟨"mock", [("capabilities/ports/mock/channels/channel-0", ⟨7⟩)], 1⟩,
          [Call.GetPort,
            Call.ClaimCapability (some ⟨7⟩) "capabilities/ports/mock/channels/channel-0"]⟩,
        "mockapp-1", none) :=
  (C9_init_returns_default refImports refModule refCtx0 Order.UNORDERED ["connection-0"]
    "mock" "channel-0" (some ⟨7⟩) ⟨"mock", "channel-1"⟩ "").2 (by decide) (by decide)
    (by decide)

/-- C10: `OnChanOpenTry` substitutes nothing: with `portID` the bound port and a
counterparty version different from the default version, it fails with
`ErrInvalidVersion`, returns the empty version and makes no claim; and whenever it
succeeds the version it returns is the default version. -/
theorem C10_try_no_substitution (T : Imports) (im : IBCModule σ) (ctx : Ctx σ)
    (order : Order) (connectionHops : List String) (portID channelID : String)
    (chanCap : Option Capability) (counterparty : Counterparty)
    (counterpartyVersion : String) :
    (portID = im.keeper.GetPort ctx.store → counterpartyVersion ≠ T.Version →
      OnChanOpenTry T im ctx order connectionHops portID channelID chanCap counterparty
          counterpartyVersion =
        (⟨ctx.store, ctx.calls ++ [Call.GetPort]⟩, "",
          some (GoError.Wrapf GoError.ErrInvalidVersion
            "invalid counterparty version: got: %s, expected %s"
            [FmtArg.str counterpartyVersion, FmtArg.str T.Version]))) ∧
    ((OnChanOpenTry T im ctx order connectionHops portID channelID chanCap counterparty
        counterpartyVersion).2.2 = none →
      (OnChanOpenTry T im ctx order connectionHops portID channelID chanCap counterparty
        counterpartyVersion).2.1 = T.Version) := by
  constructor
  · intro hport hver
    exact onChanOpenTry_invalidVersion T im ctx order connectionHops portID channelID
      chanCap counterparty counterpartyVersion hport.symm hver
  · intro hok
    obtain ⟨hport, hver, hclaim⟩ := onChanOpen_success OpenStage.Try T im ctx order
      connectionHops portID channelID chanCap counterparty counterpartyVersion hok
    rw [onChanOpenTry_claim T im ctx order connectionHops portID channelID chanCap
      counterparty counterpartyVersion hport hver]
    simp [hclaim]

/-- C10 at a concrete input: on the fresh reference store, `OnChanOpenTry` on port `mock`
with the empty counterparty version fails with `ErrInvalidVersion` and claims nothing. -/
theorem C10_try_no_substitution_witness :
    OnChanOpenTry refImports refModule refCtx0 Order.UNORDERED ["connection-0"] "mock"
        "channel-0" (some ⟨7⟩) ⟨"mock", "channel-1"⟩ "" =
      (⟨refStore0, [Call.GetPort]⟩, "",
        some (GoError.Wrapf GoError.ErrInvalidVersion
          "invalid counterparty version: got: %s, expected %s"
          [FmtArg.str "", FmtArg.str "mockapp-1"])) :=
  (C10_try_no_substitution refImports refModule refCtx0 Order.UNORDERED ["connection-0"]
    "mock" "channel-0" (some ⟨7⟩) ⟨"mock", "channel-1"⟩ "").1 (by decide) (by decide)

/-! ## The later handshake stages, closing and upgrading -/

/-- C11: `OnChanOpenAck` fails, with `ErrInvalidVersion`, if and only if the counterparty
version differs from the default version, and succeeds otherwise; it makes no call to a
collaborator, so the port is not validated, and its outcome is the same for every
`portID`, `channelID` and counterparty channel ID. -/
theorem C11_ack_version_only (T : Imports) (im : IBCModule σ) (ctx : Ctx σ)
    (portID channelID counterpartyChannelID counterpartyVersion : String) :
    ((OnChanOpenAck T im ctx portID channelID counterpartyChannelID
        counterpartyVersion).2 = none ↔ counterpartyVersion = T.Version) ∧
    (counterpartyVersion ≠ T.Version →
      OnChanOpenAck T im ctx portID channelID counterpartyChannelID counterpartyVersion =
        (ctx, some (GoError.Wrapf GoError.ErrInvalidVersion
          "invalid counterparty version: %s, expected %s"
          [FmtArg.str counterpartyVersion, FmtArg.str T.Version]))) ∧
    (counterpartyVersion = T.Version →
      OnChanOpenAck T im ctx portID channelID counterpartyChannelID counterpartyVersion =
        (ctx, none)) ∧
    (∀ portID2 channelID2 counterpartyChannelID2 : String,
      OnChanOpenAck T im ctx portID2 channelID2 counterpartyChannelID2 counterpartyVersion =
        OnChanOpenAck T im ctx portID channelID counterpartyChannelID
          counterpartyVersion) := by
  refine ⟨?_, ?_, ?_, ?_⟩
  · by_cases h : counterpartyVersion = T.Version <;> simp [OnChanOpenAck, h]
  · intro h
    simp [OnChanOpenAck, h]
  · intro h
    simp [OnChanOpenAck, h]
  · intro _ _ _
    rfl

/-- C11 at a concrete input: on the fresh reference store, whose bound port is `mock`,
`OnChanOpenAck` on the port `other` with the version `mockapp-2` fails with
`ErrInvalidVersion`. -/
theorem C11_ack_version_only_witness :
    OnChanOpenAck refImports refModule refCtx0 "other" "channel-0" "channel-1" "mockapp-2" =
      (refCtx0, some (GoError.Wrapf GoError.ErrInvalidVersion
        "invalid counterparty version: %s, expected %s"
        [FmtArg.str "mockapp-2", FmtArg.str "mockapp-1"])) :=
  (C11_ack_version_only refImports refModule refCtx0 "other" "channel-0" "channel-1"
    "mockapp-2").2.1 (by decide)

/-- C12: for every `portID` and `channelID`, `OnChanCloseInit` fails, with the error the
spec calls `ClosingNotPermitted`, which is `ErrInvalidRequest` wrapped with "user cannot
close channel", and `OnChanCloseConfirm` succeeds. -/
theorem C12_close (im : IBCModule σ) (ctx : Ctx σ) (portID channelID : String) :
    OnChanCloseInit im ctx portID channelID =
      (ctx, some (GoError.Wrap GoError.ErrInvalidRequest "user cannot close channel")) ∧
    OnChanCloseConfirm im ctx portID channelID = (ctx, none) :=
  ⟨rfl, rfl⟩

/-- C13: for every `portID`, `channelID`, proposed order, connection hops and version
string, `OnChanUpgradeInit` returns the proposed version unchanged and no error,
`OnChanUpgradeTry` returns the counterparty version unchanged and no error, and
`OnChanUpgradeAck` succeeds. -/
theorem C13_upgrade_accepts (ctx : Ctx σ) (portID channelID : String) (proposedOrder : Order)
    (proposedConnectionHops : List String) (version : String) :
    (OnChanUpgradeInit ctx portID channelID proposedOrder proposedConnectionHops
        version).2 = (version, none) ∧
    (OnChanUpgradeTry ctx portID channelID proposedOrder proposedConnectionHops
        version).2 = (version, none) ∧
    (OnChanUpgradeAck ctx portID channelID version).2 = none :=
  ⟨rfl, rfl, rfl⟩

/-- C14: the upgrade callbacks `OnChanUpgradeInit`, `OnChanUpgradeTry`, `OnChanUpgradeAck`
and `OnChanUpgradeOpen`, and `OnChanOpenAck`, `OnChanOpenConfirm`, `OnChanCloseInit`,
`OnChanCloseConfirm`, `OnRecvPacket`, `OnAcknowledgementPacket` and `OnTimeoutPacket`,
leave the context exactly as it was, for every input and every state, whether they succeed
or fail: the state of the collaborators is unchanged and no collaborator is called. -/
theorem C14_frame (T : Imports) (im : IBCModule σ) (ctx : Ctx σ)
    (portID channelID counterpartyChannelID version : String) (order : Order)
    (connectionHops : List String) (packet : Packet) (ack relayer : Bytes) :
    (OnChanUpgradeInit ctx portID channelID order connectionHops version).1 = ctx ∧
    (OnChanUpgradeTry ctx portID channelID order connectionHops version).1 = ctx ∧
    (OnChanUpgradeAck ctx portID channelID version).1 = ctx ∧
    OnChanUpgradeOpen ctx portID channelID order connectionHops version = ctx ∧
    (OnChanOpenAck T im ctx portID channelID counterpartyChannelID version).1 = ctx ∧
    (OnChanOpenConfirm im ctx portID channelID).1 = ctx ∧
    (OnChanCloseInit im ctx portID channelID).1 = ctx ∧
    (OnChanCloseConfirm im ctx portID channelID).1 = ctx ∧
    (OnRecvPacket im ctx packet relayer).1 = ctx ∧
    (OnAcknowledgementPacket T im ctx packet ack relayer).1 = ctx ∧
    (OnTimeoutPacket im ctx packet relayer).1 = ctx := by
  refine ⟨rfl, rfl, rfl, rfl, ?_, rfl, rfl, rfl, ?_, ?_, rfl⟩
  · by_cases h : version = T.Version <;> simp [OnChanOpenAck, h]
  · rw [onRecvPacket_eq]
  · rw [onAcknowledgementPacket_eq]

/-! ## Lemmas on the capability store, the checks and the serialization -/

/-- In the reference store a successful claim of a path makes its lookup succeed. -/
theorem refKeeper_claimEnablesLookup : ClaimEnablesLookup refKeeper := by
  intro s cap name h
  cases cap with
  | none => simp [refKeeper, refClaimCapability] at h
  | some c =>
    by_cases hl : (name, c) ∈ s.owned
    · simp [refKeeper, refClaimCapability, hl] at h
    · simp [refKeeper, refClaimCapability, refGetCapability, hl, List.lookup]

/-- The result of an open callback when the port is not the bound port. -/
theorem onChanOpen_invalidPort (stage : OpenStage) (T : Imports) (im : IBCModule σ)
    (ctx : Ctx σ) (order : Order) (hops : List String) (portID channelID : String)
    (chanCap : Option Capability) (cp : Counterparty) (version : String)
    (hport : im.keeper.GetPort ctx.store ≠ portID) :
    OnChanOpen stage T im ctx order hops portID channelID chanCap cp version =
      (⟨ctx.store, ctx.calls ++ [Call.GetPort]⟩, "",
        some (GoError.Wrapf GoError.ErrInvalidPort "invalid port: %s, expected %s"
          [FmtArg.str portID, FmtArg.str (im.keeper.GetPort ctx.store)])) := by
  cases stage with
  | Init =>
    exact onChanOpenInit_invalidPort T im ctx order hops portID channelID chanCap cp version
      hport
  | Try =>
    exact onChanOpenTry_invalidPort T im ctx order hops portID channelID chanCap cp version
      hport

/-- An open callback whose version is refused, the port being bound, makes no claim,
returns the empty version and fails with an error whose root is `ErrInvalidVersion`. -/
theorem onChanOpen_invalidVersion (stage : OpenStage) (T : Imports) (im : IBCModule σ)
    (ctx : Ctx σ) (order : Order) (hops : List String) (portID channelID : String)
    (chanCap : Option Capability) (cp : Counterparty) (version : String)
    (hport : im.keeper.GetPort ctx.store = portID)
    (hver : ¬ VersionAccepted T stage version) :
    (OnChanOpen stage T im ctx order hops portID channelID chanCap cp version).1 =
        ⟨ctx.store, ctx.calls ++ [Call.GetPort]⟩ ∧
      (OnChanOpen stage T im ctx order hops portID channelID chanCap cp version).2.1 = "" ∧
      ∃ e, (OnChanOpen stage T im ctx order hops portID channelID chanCap cp
          version).2.2 = some e ∧ e.root = GoError.ErrInvalidVersion := by
  cases stage with
  | Init =>
    rw [OnChanOpen, onChanOpenInit_invalidVersion T im ctx order hops portID channelID
      chanCap cp version hport hver]
    exact ⟨rfl, rfl, _, rfl, rfl⟩
  | Try =>
    rw [OnChanOpen, onChanOpenTry_invalidVersion T im ctx order hops portID channelID
      chanCap cp version hport hver]
    exact ⟨rfl, rfl, _, rfl, rfl⟩

/-- A proposal with a character that is not white space stands for itself. -/
theorem substituted_of_nonspace (T : Imports) (version : String)
    (h : ∃ c ∈ version.data, IsSpace c = false) : substituted T version = version := by
  unfold substituted
  rw [if_neg]
  intro hempty
  obtain ⟨c, hc, hs⟩ := h
  have := (trimSpace_eq_empty_iff version).mp hempty c hc
  rw [hs] at this
  exact Bool.noConfusion this

/-- The byte `UInt8.ofNat n` is `n` modulo 256. -/
theorem toNat_ofNat_uint8 (n : Nat) : (UInt8.ofNat n).toNat = n % 256 :=
  rfl

/-- The fixed-width encoding of characters is injective. -/
theorem wideChar_injective (c d : Char) (h : wideChar c = wideChar d) : c = d := by
  have hc : c.toNat < 4294967296 := c.val.val.isLt
  have hd : d.toNat < 4294967296 := d.val.val.isLt
  simp only [wideChar, List.cons.injEq, and_true] at h
  obtain ⟨h1, h2, h3, h4⟩ := h
  have e1 := congrArg UInt8.toNat h1
  have e2 := congrArg UInt8.toNat h2
  have e3 := congrArg UInt8.toNat h3
  have e4 := congrArg UInt8.toNat h4
  simp only [toNat_ofNat_uint8] at e1 e2 e3 e4
  have hn : c.toNat = d.toNat := by omega
  exact Char.ext (UInt32.ext hn)

/-- The fixed-width encoding of character lists is injective. -/
theorem flatMap_wideChar_injective : ∀ l l2 : List Char,
    l.flatMap wideChar = l2.flatMap wideChar → l = l2
  | [], [] => fun _ => rfl
  | [], _ :: _ => fun h => by simp [wideChar] at h
  | _ :: _, [] => fun h => by simp [wideChar] at h
  | c :: l, d :: l2 => fun h => by
    simp only [List.flatMap_cons] at h
    obtain ⟨h1, h2⟩ := List.append_inj h (by simp [wideChar])
    rw [wideChar_injective c d h1, flatMap_wideChar_injective l l2 h2]

/-- The fixed-width serialization of acknowledgements is injective. -/
theorem wideAcknowledgement_injective : Function.Injective wideAcknowledgement := by
  intro a b h
  cases a with
  | Success r =>
    cases b with
    | Success r2 =>
      simp only [wideAcknowledgement, List.cons.injEq, true_and] at h
      rw [String.ext (flatMap_wideChar_injective _ _ h)]
    | Failure r2 =>
      simp only [wideAcknowledgement, List.cons.injEq] at h
      exact absurd h.1 (by decide)
  | Failure r =>
    cases b with
    | Success r2 =>
      simp only [wideAcknowledgement, List.cons.injEq] at h
      exact absurd h.1 (by decide)
    | Failure r2 =>
      simp only [wideAcknowledgement, List.cons.injEq, true_and] at h
      rw [String.ext (flatMap_wideChar_injective _ _ h)]

/-- The expected acknowledgements of different classes are different. -/
theorem expectedAcknowledgement_injective :
    Function.Injective expectedAcknowledgement := by
  intro c d h
  cases c <;> cases d <;> first | rfl | (exact absurd h (by decide))

/-! ## From the handshake to sending -/

/-- C15: in a capability store where a successful claim of a path makes a later lookup of
that path succeed, after a successful `OnChanOpenInit` or `OnChanOpenTry` for
`(portID, channelID)` the lookup made by `sendPacket` with `sourcePort = portID` and
`sourceChannel = channelID` finds the capability, because the claim and the lookup use the
same path; `sendPacket` therefore passes its capability-not-found guard, calls the
transport once, and its result is the error the transport returns. -/
theorem C15_handshake_enables_sending (T : Imports) (im : IBCModule σ)
    (hstore : ClaimEnablesLookup im.keeper) (ctx : Ctx σ) (stage : OpenStage)
    (order : Order) (connectionHops : List String) (portID channelID : String)
    (chanCap : Option Capability) (counterparty : Counterparty) (version : String)
    (message : String) (sender : Bytes) (timeoutHeight : Height) (timeoutTimestamp : Nat)
    (r : Ctx σ × String × Option GoError)
    (hr : OnChanOpen stage T im ctx order connectionHops portID channelID chanCap
      counterparty version = r)
    (hok : r.2.2 = none) :
    (im.keeper.scopedKeeper.GetCapability r.1.store
        (T.ChannelCapabilityPath portID channelID)).2 = true ∧
    sendPacket T im.keeper r.1 portID channelID message sender timeoutHeight
        timeoutTimestamp =
      (⟨(im.keeper.ics4Wrapper.SendPacket r.1.store
            (im.keeper.scopedKeeper.GetCapability r.1.store
              (T.ChannelCapabilityPath portID channelID)).1
            portID channelID timeoutHeight timeoutTimestamp (bytesOf message)).1,
          r.1.calls ++ [Call.GetCapability (T.ChannelCapabilityPath portID channelID),
            Call.SendPacket
              (im.keeper.scopedKeeper.GetCapability r.1.store
                (T.ChannelCapabilityPath portID channelID)).1
              portID channelID timeoutHeight timeoutTimestamp (bytesOf message)]⟩,
        (im.keeper.ics4Wrapper.SendPacket r.1.store
            (im.keeper.scopedKeeper.GetCapability r.1.store
              (T.ChannelCapabilityPath portID channelID)).1
            portID channelID timeoutHeight timeoutTimestamp (bytesOf message)).2.2) := by
  subst hr
  obtain ⟨hport, hver, hclaim⟩ := onChanOpen_success stage T im ctx order connectionHops
    portID channelID chanCap counterparty version hok
  have hfound := hstore ctx.store chanCap (T.ChannelCapabilityPath portID channelID) hclaim
  rw [onChanOpen_claim stage T im ctx order connectionHops portID channelID chanCap
    counterparty version hport hver]
  refine ⟨hfound, ?_⟩
  simp [sendPacket, callGetCapability, callSendPacket, hfound]

/-- C15 at a concrete input: on the fresh reference store, after `OnChanOpenInit` on port
`mock` and `channel-0`, sending `hello` on that port and channel reaches the transport with
the claimed capability and succeeds. -/
theorem C15_handshake_enables_sending_witness :
    sendPacket refImports refKeeper
        (⟨⟨"mock", [("capabilities/ports/mock/channels/channel-0", ⟨7⟩)], 1⟩,
          [Call.GetPort,
            Call.ClaimCapability (some ⟨7⟩) "capabilities/ports/mock/channels/channel-0"]⟩)
        "mock" "channel-0" "hello" [] ⟨0, 100⟩ 5 =
      (⟨⟨"mock", [("capabilities/ports/mock/channels/channel-0", ⟨7⟩)], 2⟩,
          [Call.GetPort,
            Call.ClaimCapability (some ⟨7⟩) "capabilities/ports/mock/channels/channel-0",
            Call.GetCapability "capabilities/ports/mock/channels/channel-0",
            Call.SendPacket (some ⟨7⟩) "mock" "channel-0" ⟨0, 100⟩ 5 (bytesOf "hello")]⟩,
        none) :=
  (C15_handshake_enables_sending refImports refModule refKeeper_claimEnablesLookup refCtx0
    OpenStage.Init Order.UNORDERED ["connection-0"] "mock" "channel-0" (some ⟨7⟩)
    ⟨"mock", "channel-1"⟩ "" "hello" [] ⟨0, 100⟩ 5
    (⟨⟨"mock", [("capabilities/ports/mock/channels/channel-0", ⟨7⟩)], 1⟩,
        [Call.GetPort,
          Call.ClaimCapability (some ⟨7⟩) "capabilities/ports/mock/channels/channel-0"]⟩,
      "mockapp-1", none)
    (by decide) rfl).2

/-! ## Failed validation -/

/-- C16: `ValidateChannelParams` leaves the state as it is, its only collaborator call
being `GetPort`; an open callback (Init or Try) that fails its port check or its version
check claims nothing, leaves the state unchanged, returns the empty version and an error
whose root is `ErrInvalidPort` or `ErrInvalidVersion`; and, the claim of the call returning
no error with either of these two roots, an open callback that fails with `ErrInvalidPort`
or `ErrInvalidVersion` has not invoked `ClaimCapability`, has left the state unchanged and
returns the empty version. -/
theorem C16_validation_atomic (T : Imports) (im : IBCModule σ) (ctx : Ctx σ)
    (stage : OpenStage) (order : Order) (connectionHops : List String)
    (portID channelID : String) (chanCap : Option Capability) (counterparty : Counterparty)
    (version : String) :
    (ValidateChannelParams ctx im.keeper order portID channelID).1 =
      ⟨ctx.store, ctx.calls ++ [Call.GetPort]⟩ ∧
    ((im.keeper.GetPort ctx.store ≠ portID ∨ ¬ VersionAccepted T stage version) →
      (OnChanOpen stage T im ctx order connectionHops portID channelID chanCap counterparty
          version).1 = ⟨ctx.store, ctx.calls ++ [Call.GetPort]⟩ ∧
      (OnChanOpen stage T im ctx order connectionHops portID channelID chanCap counterparty
          version).2.1 = "" ∧
      ∃ e, (OnChanOpen stage T im ctx order connectionHops portID channelID chanCap
          counterparty version).2.2 = some e ∧
        (e.root = GoError.ErrInvalidPort ∨ e.root = GoError.ErrInvalidVersion)) ∧
    ((∀ e, (im.keeper.ClaimCapability ctx.store chanCap
          (T.ChannelCapabilityPath portID channelID)).2 = some e →
        e.root ≠ GoError.ErrInvalidPort ∧ e.root ≠ GoError.ErrInvalidVersion) →
      ∀ e, (OnChanOpen stage T im ctx order connectionHops portID channelID chanCap
          counterparty version).2.2 = some e →
        (e.root = GoError.ErrInvalidPort ∨ e.root = GoError.ErrInvalidVersion) →
        (OnChanOpen stage T im ctx order connectionHops portID channelID chanCap
            counterparty version).1 = ⟨ctx.store, ctx.calls ++ [Call.GetPort]⟩ ∧
        (OnChanOpen stage T im ctx order connectionHops portID channelID chanCap
            counterparty version).2.1 = "") := by
  have hfail : (im.keeper.GetPort ctx.store ≠ portID ∨ ¬ VersionAccepted T stage version) →
      (OnChanOpen stage T im ctx order connectionHops portID channelID chanCap counterparty
          version).1 = ⟨ctx.store, ctx.calls ++ [Call.GetPort]⟩ ∧
      (OnChanOpen stage T im ctx order connectionHops portID channelID chanCap counterparty
          version).2.1 = "" ∧
      ∃ e, (OnChanOpen stage T im ctx order connectionHops portID channelID chanCap
          counterparty version).2.2 = some e ∧
        (e.root = GoError.ErrInvalidPort ∨ e.root = GoError.ErrInvalidVersion) := by
    intro h
    by_cases hport : im.keeper.GetPort ctx.store = portID
    · have hver : ¬ VersionAccepted T stage version := h.resolve_left (fun hn => hn hport)
      obtain ⟨h1, h2, e, he, hroot⟩ := onChanOpen_invalidVersion stage T im ctx order
        connectionHops portID channelID chanCap counterparty version hport hver
      exact ⟨h1, h2, e, he, Or.inr hroot⟩
    · rw [onChanOpen_invalidPort stage T im ctx order connectionHops portID channelID
        chanCap counterparty version hport]
      exact ⟨rfl, rfl, _, rfl, Or.inl rfl⟩
  refine ⟨by rw [validateChannelParams_eq], hfail, ?_⟩
  intro hclaim e he hroot
  by_cases hvalid : im.keeper.GetPort ctx.store = portID ∧ VersionAccepted T stage version
  · exfalso
    rw [onChanOpen_claim stage T im ctx order connectionHops portID channelID chanCap
      counterparty version hvalid.1 hvalid.2] at he
    have hne := hclaim e he
    cases hroot with
    | inl h => exact hne.1 h
    | inr h => exact hne.2 h
  · have hcause : im.keeper.GetPort ctx.store ≠ portID ∨ ¬ VersionAccepted T stage version := by
      by_cases hport : im.keeper.GetPort ctx.store = portID
      · exact Or.inr (fun hv => hvalid ⟨hport, hv⟩)
      · exact Or.inl hport
    exact ⟨(hfail hcause).1, (hfail hcause).2.1⟩

/-- C16 at a concrete input: on the fresh reference store, whose bound port is `mock`,
`OnChanOpenTry` on the port `other` leaves the store as it was, having called only
`GetPort`. -/
theorem C16_validation_atomic_witness :
    (OnChanOpen OpenStage.Try refImports refModule refCtx0 Order.UNORDERED
        ["connection-0"] "other" "channel-0" (some ⟨7⟩) ⟨"mock", "channel-1"⟩
        "mockapp-1").1 = ⟨refStore0, [Call.GetPort]⟩ :=
  ((C16_validation_atomic refImports refModule refCtx0 OpenStage.Try Order.UNORDERED
    ["connection-0"] "other" "channel-0" (some ⟨7⟩) ⟨"mock", "channel-1"⟩
    "mockapp-1").2.1 (Or.inl (by decide))).1

/-- C17: the port check comes before the version check: when `portID` is not the bound
port, `OnChanOpenInit` and `OnChanOpenTry` fail with `ErrInvalidPort`, wrapped with the
port given and the port expected, whatever the version; the error is not
`ErrInvalidVersion`, the version returned is empty and nothing is claimed. -/
theorem C17_port_check_first (T : Imports) (im : IBCModule σ) (ctx : Ctx σ)
    (stage : OpenStage) (order : Order) (connectionHops : List String)
    (portID channelID : String) (chanCap : Option Capability) (counterparty : Counterparty)
    (version : String)
    (hport : portID ≠ im.keeper.GetPort ctx.store) :
    OnChanOpen stage T im ctx order connectionHops portID channelID chanCap counterparty
        version =
      (⟨ctx.store, ctx.calls ++ [Call.GetPort]⟩, "",
        some (GoError.Wrapf GoError.ErrInvalidPort "invalid port: %s, expected %s"
          [FmtArg.str portID, FmtArg.str (im.keeper.GetPort ctx.store)])) ∧
    ∀ e, (OnChanOpen stage T im ctx order connectionHops portID channelID chanCap
        counterparty version).2.2 = some e →
      e.root = GoError.ErrInvalidPort ∧ e.root ≠ GoError.ErrInvalidVersion := by
  have h := onChanOpen_invalidPort stage T im ctx order connectionHops portID channelID
    chanCap counterparty version (fun hp => hport hp.symm)
  refine ⟨h, ?_⟩
  intro e he
  rw [h] at he
  have he2 : GoError.Wrapf GoError.ErrInvalidPort "invalid port: %s, expected %s"
      [FmtArg.str portID, FmtArg.str (im.keeper.GetPort ctx.store)] = e :=
    Option.some.inj he
  subst he2
  exact ⟨rfl, by simp [GoError.root]⟩

/-- C17 at a concrete input: on the fresh reference store, whose bound port is `mock`,
`OnChanOpenInit` on the port `other` with the version `bad` fails with `ErrInvalidPort`. -/
theorem C17_port_check_first_witness :
    OnChanOpen OpenStage.Init refImports refModule refCtx0 Order.UNORDERED
        ["connection-0"] "other" "channel-0" (some ⟨7⟩) ⟨"mock", "channel-1"⟩ "bad" =
      (⟨refStore0, [Call.GetPort]⟩, "",
        some (GoError.Wrapf GoError.ErrInvalidPort "invalid port: %s, expected %s"
          [FmtArg.str "other", FmtArg.str "mock"])) :=
  (C17_port_check_first refImports refModule refCtx0 OpenStage.Init Order.UNORDERED
    ["connection-0"] "other" "channel-0" (some ⟨7⟩) ⟨"mock", "channel-1"⟩ "bad"
    (by decide)).1

/-- C18: in `OnChanOpenInit` a proposal is never normalised: for every proposed version
that has a character that is not white space and differs from the default version,
`OnChanOpenInit` with the bound port fails with `ErrInvalidVersion`, wrapped with the
proposal as given and the default version, returns the empty version and claims no
capability. -/
theorem C18_trim_only_detects_empty (T : Imports) (im : IBCModule σ) (ctx : Ctx σ)
    (order : Order) (connectionHops : List String) (portID channelID : String)
    (chanCap : Option Capability) (counterparty : Counterparty) (version : String)
    (hnonspace : ∃ c ∈ version.data, IsSpace c = false)
    (hne : version ≠ T.Version)
    (hport : portID = im.keeper.GetPort ctx.store) :
    OnChanOpenInit T im ctx order connectionHops portID channelID chanCap counterparty
        version =
      (⟨ctx.store, ctx.calls ++ [Call.GetPort]⟩, "",
        some (GoError.Wrapf GoError.ErrInvalidVersion "got %s, expected %s"
          [FmtArg.str version, FmtArg.str T.Version])) := by
  have hsub := substituted_of_nonspace T version hnonspace
  have h := onChanOpenInit_invalidVersion T im ctx order connectionHops portID channelID
    chanCap counterparty version hport.symm (by rw [hsub]; exact hne)
  rw [hsub] at h
  exact h

/-- C18 at a concrete input: on the fresh reference store, `OnChanOpenInit` on port `mock`
with the default version preceded by a space fails with `ErrInvalidVersion` and claims
nothing. -/
theorem C18_trim_only_detects_empty_witness :
    OnChanOpenInit refImports refModule refCtx0 Order.UNORDERED ["connection-0"] "mock"
        "channel-0" (some ⟨7⟩) ⟨"mock", "channel-1"⟩ " mockapp-1" =
      (⟨refStore0, [Call.GetPort]⟩, "",
        some (GoError.Wrapf GoError.ErrInvalidVersion "got %s, expected %s"
          [FmtArg.str " mockapp-1", FmtArg.str "mockapp-1"])) :=
  C18_trim_only_detects_empty refImports refModule refCtx0 Order.UNORDERED
    ["connection-0"] "mock" "channel-0" (some ⟨7⟩) ⟨"mock", "channel-1"⟩ " mockapp-1"
    ⟨'m', by decide, by decide⟩ (by decide) (by decide)

/-! ## Acknowledgements of different classes -/

/-- C19: when the serialization of acknowledgements is injective, the three expected
acknowledgements `Success("mock acknowledgement")`, `Success("mock async acknowledgement")`
and `Failure("mock failed acknowledgement")` serialize to pairwise distinct byte strings;
hence acknowledgement bytes that `OnAcknowledgementPacket` accepts for a payload are
rejected with `ErrUnexpectedAcknowledgement` for every payload of a different class; in
particular the acknowledgement `OnRecvPacket` returns for the sync payload is rejected when
the original payload is the async sentinel. -/
theorem C19_classes_not_confused (T : Imports) (im : IBCModule σ)
    (hinj : Function.Injective T.Acknowledgement) (ctx ctx2 : Ctx σ) (p q : Packet)
    (ack relayer relayer2 : Bytes) :
    (T.Acknowledgement (Acknowledgement.Success "mock acknowledgement") ≠
        T.Acknowledgement (Acknowledgement.Success "mock async acknowledgement") ∧
      T.Acknowledgement (Acknowledgement.Success "mock acknowledgement") ≠
        T.Acknowledgement (Acknowledgement.Failure "mock failed acknowledgement") ∧
      T.Acknowledgement (Acknowledgement.Success "mock async acknowledgement") ≠
        T.Acknowledgement (Acknowledgement.Failure "mock failed acknowledgement")) ∧
    (payloadClass p.Data ≠ payloadClass q.Data →
      (OnAcknowledgementPacket T im ctx p ack relayer).2 = none →
      OnAcknowledgementPacket T im ctx2 q ack relayer2 =
        (ctx2, some (GoError.Wrapf GoError.ErrUnexpectedAcknowledgement
          "got: %s, expected: %s"
          [FmtArg.bytes ack, FmtArg.bytes
            (T.Acknowledgement (expectedAcknowledgement (payloadClass q.Data)))]))) ∧
    (p.Data = bytesOf "mock packet data" → q.Data = bytesOf "mock async packet data" →
      ∀ a, (OnRecvPacket im ctx p relayer).2 = some a →
        OnAcknowledgementPacket T im ctx2 q (T.Acknowledgement a) relayer2 =
          (ctx2, some (GoError.Wrapf GoError.ErrUnexpectedAcknowledgement
            "got: %s, expected: %s"
            [FmtArg.bytes (T.Acknowledgement a), FmtArg.bytes
              (T.Acknowledgement
                (Acknowledgement.Success "mock async acknowledgement"))]))) := by
  refine ⟨⟨?_, ?_, ?_⟩, ?_, ?_⟩
  · exact fun h => absurd (hinj h) (by decide)
  · exact fun h => absurd (hinj h) (by decide)
  · exact fun h => absurd (hinj h) (by decide)
  · intro hclass hok
    rw [onAcknowledgementPacket_eq] at hok ⊢
    by_cases hp : ack = T.Acknowledgement (expectedAcknowledgement (payloadClass p.Data))
    · have hq : ack ≠ T.Acknowledgement (expectedAcknowledgement (payloadClass q.Data)) := by
        intro hq
        exact hclass (expectedAcknowledgement_injective (hinj (hp.symm.trans hq)))
      simp [hq]
    · simp [hp] at hok
  · intro hp hq a ha
    rw [onRecvPacket_eq] at ha
    have hcp : payloadClass p.Data = PayloadClass.sync := by simp [payloadClass, hp]
    have hcq : payloadClass q.Data = PayloadClass.async := by
      simp [payloadClass, hq, Ne.symm sync_ne_async]
    simp only [hcp, Option.some.injEq] at ha
    subst ha
    rw [onAcknowledgementPacket_eq, hcq]
    have hne : T.Acknowledgement (Acknowledgement.Success "mock acknowledgement") ≠
        T.Acknowledgement (Acknowledgement.Success "mock async acknowledgement") :=
      fun h => absurd (hinj h) (by decide)
    simp [hne, expectedAcknowledgement]

/-- C19 at a concrete input: with the fixed-width serialization, which is injective, the
serialized acknowledgement of the packet carrying `mock packet data` is rejected with
`ErrUnexpectedAcknowledgement` for the packet carrying `mock async packet data`. -/
theorem C19_classes_not_confused_witness :
    OnAcknowledgementPacket wideImports refModule refCtx0
        (mkPacket (bytesOf "mock async packet data"))
        (wideAcknowledgement (Acknowledgement.Success "mock acknowledgement")) [] =
      (refCtx0, some (GoError.Wrapf GoError.ErrUnexpectedAcknowledgement
        "got: %s, expected: %s"
        [FmtArg.bytes (wideAcknowledgement (Acknowledgement.Success "mock acknowledgement")),
          FmtArg.bytes
            (wideAcknowledgement (Acknowledgement.Success "mock async acknowledgement"))])) :=
  (C19_classes_not_confused wideImports refModule wideAcknowledgement_injective refCtx0
    refCtx0 (mkPacket (bytesOf "mock packet data"))
    (mkPacket (bytesOf "mock async packet data")) [] [] []).2.2 rfl rfl
    (Acknowledgement.Success "mock acknowledgement") (by decide)

end MockApp
